import Mathlib

/-!
# Mars-Rover LoRa controller (`src/lora_controller.cpp`)

A shallow embedding of the module state and entry points of the LoRa link
controller: the frame-arrival interrupt handler, the receive worker, the
liveness monitor, the subscriber registry and the channel value accessor.

Conventions of the embedding.

* The file-scope statics of the translation unit are the fields of `State`.
  Fixed-size C arrays are functions on `Fin n`, so an index outside the array
  has no slot and is reported as `Outcome.out_of_bounds`.
* A failing `assert` stops the program; the outcome `Outcome.assert_failed`
  carries the module state as it stood when the assertion failed.
* Callbacks are opaque handles. Invoking one is recorded as an entry of the
  call trace returned by the liveness check; the callee is outside this
  translation unit and is taken not to touch the module state.
* Tick counts are 32-bit (`TickType_t`): the tick source takes the number of
  ticks really elapsed and returns it modulo `2 ^ 32`.
* The target (ESP32) is little-endian: `memcpy` of bytes into the `uint16_t`
  channel array puts the byte at the lower address in the low half.
-/

namespace LoraController

/-! ## Constants -/

/-- `#define MAX_REGISTRATED_CALLBACKS 2` -/
abbrev MAX_REGISTRATED_CALLBACKS : Nat := 2

/-- `#define LORA_DATA_NOTIFICATION 1` -/
abbrev LORA_DATA_NOTIFICATION : Nat := 1

/-- `#define LORA_PACKET_LENGTH 12` -/
abbrev LORA_PACKET_LENGTH : Nat := 12

/-- Modelled from the spec: `RC_NUM_CHANNELS` comes from `rover_config.h`, which
is not among the sources. The spec fixes the reference configuration at six
16-bit channels per 12-byte frame. -/
abbrev RC_NUM_CHANNELS : Nat := 6

/-- Width of `TickType_t` (`uint32_t`). -/
abbrev TICK_MODULUS : Nat := 2 ^ 32

/-! ## Data model -/

/-- Modelled from the spec: the enumeration `LoraControllerStatus` is declared
in `lora_controller.h`, which is not among the sources. The code uses exactly
these two constants; the spec calls them Disconnected and Connected. -/
inductive LoraControllerStatus where
  | LORA_CONTROLLER_DISCONNECTED
  | LORA_CONTROLLER_CONNECTED
  deriving DecidableEq, Repr

open LoraControllerStatus

/-- Modelled from the spec: `LoraControllerStatusCb` is declared in
`lora_controller.h`, which is not among the sources. A subscriber is an opaque
callback reference; here it is the value of the function pointer, `0` being the
null pointer a zero-initialised static slot holds. -/
abbrev LoraControllerStatusCb : Type := Nat

/-- One callback invocation: which handle was called and with which argument. -/
abbrev Call : Type := LoraControllerStatusCb × LoraControllerStatus

/-- The file-scope statics of `lora_controller.cpp`, together with the
notification slot of the receive task that `xTaskNotifyFromISR` and
`xTaskNotifyWait` act on. -/
structure State where
  /-- `static LoraControllerStatusCb* status_callbacks[MAX_REGISTRATED_CALLBACKS]` -/
  status_callbacks : Fin MAX_REGISTRATED_CALLBACKS → LoraControllerStatusCb
  /-- `static uint8_t num_callbacks` -/
  num_callbacks : Nat
  /-- `static bool is_initialized = false` -/
  is_initialized : Bool
  /-- `static uint16_t channel_values[RC_NUM_CHANNELS] = {0}` -/
  channel_values : Fin RC_NUM_CHANNELS → Nat
  /-- `static LoraControllerStatus status = LORA_CONTROLLER_DISCONNECTED` -/
  status : LoraControllerStatus
  /-- `static uint8_t receive_buf[LORA_PACKET_LENGTH]` -/
  receive_buf : Fin LORA_PACKET_LENGTH → Nat
  /-- `static uint32_t last_lora_data_ticks = 0` -/
  last_lora_data_ticks : Nat
  /-- `static uint32_t last_lora_data_checked_ticks = 0` -/
  last_lora_data_checked_ticks : Nat
  /-- Notification state of the receive task: a notification is pending. -/
  notify_pending : Bool
  /-- Notification value of the receive task. -/
  notify_value : Nat

/-- The module state at program start, as the static initialisers give it. -/
def State.initial : State where
  status_callbacks := fun _ => 0
  num_callbacks := 0
  is_initialized := false
  channel_values := fun _ => 0
  status := LORA_CONTROLLER_DISCONNECTED
  receive_buf := fun _ => 0
  last_lora_data_ticks := 0
  last_lora_data_checked_ticks := 0
  notify_pending := false
  notify_value := 0

/-- How a call of an entry point ends. -/
inductive Outcome (α : Type) where
  /-- The function ran to its end, leaving state `s` and returning `v`. -/
  | returned (s : State) (v : α)
  /-- An `assert` failed; `s` is the module state at that point. -/
  | assert_failed (s : State)
  /-- Slot `i` of `status_callbacks` was accessed with `i` outside the array;
  `s` is the module state at that point. -/
  | out_of_bounds (s : State) (i : Nat)

/-! ## External collaborators -/

/-- `xTaskGetTickCount()`: the 32-bit tick counter after `elapsed` real ticks. -/
def xTaskGetTickCount (elapsed : Nat) : Nat := elapsed % TICK_MODULUS

/-- `xTaskGetTickCountFromISR()`: the same counter, read from interrupt context. -/
def xTaskGetTickCountFromISR (elapsed : Nat) : Nat := elapsed % TICK_MODULUS

/-! ## Entry points -/

/-- `lora_controller_init()`. The three booleans are the results of
`LoRa.begin(868E6)` and of the two `xTaskCreate` calls (`pdPASS` or not). -/
def lora_controller_init (s : State) (begin_ok create_checker_ok create_receive_ok : Bool) :
    Outcome Unit :=
  if s.is_initialized then Outcome.assert_failed s
  else
    let s1 := { s with channel_values := fun _ => 0, num_callbacks := 0 }
    if !begin_ok then Outcome.returned s1 ()
    else if !create_checker_ok then Outcome.assert_failed s1
    else if !create_receive_ok then Outcome.assert_failed s1
    else Outcome.returned { s1 with is_initialized := true } ()

/-- `lora_controller_register_connection_callback(cb)`. -/
def lora_controller_register_connection_callback (s : State) (cb : LoraControllerStatusCb) :
    Outcome Unit :=
  if ¬ (s.num_callbacks ≤ MAX_REGISTRATED_CALLBACKS) then Outcome.assert_failed s
  else if ¬ (s.is_initialized = true) then Outcome.assert_failed s
  else if h : s.num_callbacks < MAX_REGISTRATED_CALLBACKS then
    Outcome.returned
      { s with
        status_callbacks := Function.update s.status_callbacks ⟨s.num_callbacks, h⟩ cb
        num_callbacks := (s.num_callbacks + 1) % 256 } ()
  else Outcome.out_of_bounds s s.num_callbacks

/-- `lora_controller_get_val(channel)`. -/
def lora_controller_get_val (s : State) (channel : Nat) : Outcome Nat :=
  if ¬ (s.status = LORA_CONTROLLER_CONNECTED) then Outcome.assert_failed s
  else if h : channel < RC_NUM_CHANNELS then Outcome.returned s (s.channel_values ⟨channel, h⟩)
  else Outcome.assert_failed s

/-- `on_receive_isr(packet_size)`, run when `elapsed` ticks have passed.
`xTaskNotifyFromISR` with `eSetValueWithOverwrite` always succeeds: it stores
the value and marks the notification pending, replacing an unconsumed one. -/
def on_receive_isr (s : State) (packet_size : Int) (elapsed : Nat) : State :=
  if packet_size ≠ (LORA_PACKET_LENGTH : Int) then s
  else
    { s with
      last_lora_data_ticks := xTaskGetTickCountFromISR elapsed
      notify_pending := true
      notify_value := LORA_DATA_NOTIFICATION }

/-! ## Receive worker -/

/-- The drain loop of `lora_receive_task`:
`while (LoRa.available() && i < LORA_PACKET_LENGTH) { receive_buf[i] = (uint8_t)LoRa.read(); i++; }`.
`fifo` holds the bytes the driver still has (`LoRa.available()` is its length,
`LoRa.read()` takes its head). Returns what is left in the driver, the final
`i` and the final `receive_buf`. -/
def drain_loop : List Nat → Nat → (Fin LORA_PACKET_LENGTH → Nat) →
    List Nat × Nat × (Fin LORA_PACKET_LENGTH → Nat)
  | [], i, buf => ([], i, buf)
  | b :: rest, i, buf =>
    if h : i < LORA_PACKET_LENGTH then
      drain_loop rest (i + 1) (Function.update buf ⟨i, h⟩ (b % 256))
    else (b :: rest, i, buf)

/-- `memcpy(channel_values, receive_buf, LORA_PACKET_LENGTH)` on a little-endian
target: channel `i` takes bytes `2 i` (low) and `2 i + 1` (high). With six
channels the twelve bytes cover the whole array. -/
def memcpy_channel_values (src : Fin LORA_PACKET_LENGTH → Nat) : Fin RC_NUM_CHANNELS → Nat :=
  fun i =>
    src ⟨2 * i.val, by have h : i.val < 6 := i.isLt; show 2 * i.val < 12; omega⟩ +
      256 * src ⟨2 * i.val + 1, by have h : i.val < 6 := i.isLt; show 2 * i.val + 1 < 12; omega⟩

/-- How one pass through the body of `while (true)` in `lora_receive_task` ends. -/
inductive WorkerStep where
  /-- No notification is pending: the task stays blocked in `xTaskNotifyWait`. -/
  | blocked (s : State)
  /-- The frame was published and the task is back at the top of the loop. -/
  | looped (s : State) (fifo : List Nat)
  /-- The task function returned (`i != LORA_PACKET_LENGTH`). -/
  | halted (s : State) (fifo : List Nat)
  /-- `assert(notification == LORA_DATA_NOTIFICATION)` failed. -/
  | assert_failed (s : State)

/-- One pass through the loop body of `lora_receive_task`, the driver holding
the bytes `fifo`. `xTaskNotifyWait(LORA_DATA_NOTIFICATION, 0, &notification,
portMAX_DELAY)` clears the bits `LORA_DATA_NOTIFICATION` of the value when
nothing is pending and blocks; once a notification is pending it hands out the
value, clears nothing on exit and consumes the pending mark. -/
def lora_receive_task_iteration (s : State) (fifo : List Nat) : WorkerStep :=
  if ¬ (s.notify_pending = true) then
    WorkerStep.blocked { s with notify_value := s.notify_value - s.notify_value % 2 }
  else
    let notification := s.notify_value
    let s1 := { s with notify_pending := false }
    if notification ≠ LORA_DATA_NOTIFICATION then WorkerStep.assert_failed s1
    else
      let r := drain_loop fifo 0 s1.receive_buf
      let s2 := { s1 with receive_buf := r.2.2 }
      if r.2.1 ≠ LORA_PACKET_LENGTH then WorkerStep.halted s2 r.1
      else WorkerStep.looped { s2 with channel_values := memcpy_channel_values s2.receive_buf } r.1

/-! ## Liveness monitor -/

/-- The loop `for (uint8_t i = 0; i < num_callbacks; i++) status_callbacks[i](arg);`
entered at index `i` with `remaining` passes still to make; `acc` is the trace
of the calls made so far. An index outside the array is reported. -/
def invoke_callbacks (cbs : Fin MAX_REGISTRATED_CALLBACKS → LoraControllerStatusCb)
    (arg : LoraControllerStatus) : Nat → Nat → List Call → Except Nat (List Call)
  | 0, _, acc => Except.ok acc
  | remaining + 1, i, acc =>
    if h : i < MAX_REGISTRATED_CALLBACKS then
      invoke_callbacks cbs arg remaining (i + 1) (acc ++ [(cbs ⟨i, h⟩, arg)])
    else Except.error i

/-- One pass through the body of `while (true)` in `lora_state_checker`, run
when `elapsed` ticks have passed. Returns the trace of callback invocations. -/
def lora_state_checker_iteration (s : State) (elapsed : Nat) : Outcome (List Call) :=
  if s.last_lora_data_ticks > s.last_lora_data_checked_ticks then
    if s.status = LORA_CONTROLLER_DISCONNECTED then
      let s1 := { s with status := LORA_CONTROLLER_CONNECTED }
      match invoke_callbacks s1.status_callbacks LORA_CONTROLLER_CONNECTED s1.num_callbacks 0 [] with
      | Except.ok calls =>
        Outcome.returned { s1 with last_lora_data_checked_ticks := xTaskGetTickCount elapsed } calls
      | Except.error i => Outcome.out_of_bounds s1 i
    else
      Outcome.returned { s with last_lora_data_checked_ticks := xTaskGetTickCount elapsed } []
  else
    if s.status = LORA_CONTROLLER_CONNECTED then
      let s1 := { s with status := LORA_CONTROLLER_DISCONNECTED }
      match invoke_callbacks s1.status_callbacks LORA_CONTROLLER_DISCONNECTED s1.num_callbacks 0 [] with
      | Except.ok calls =>
        Outcome.returned { s1 with last_lora_data_checked_ticks := xTaskGetTickCount elapsed } calls
      | Except.error i => Outcome.out_of_bounds s1 i
    else
      Outcome.returned { s with last_lora_data_checked_ticks := xTaskGetTickCount elapsed } []

/-- The consecutive passes of `while (true)` in `lora_state_checker`: one pass
per entry of `ticks` (the ticks elapsed when that pass runs), the traces of
the passes concatenated. A pass that does not return ends the run. -/
def run_checks : State → List Nat → Outcome (List Call)
  | s, [] => Outcome.returned s []
  | s, t :: ts =>
    match lora_state_checker_iteration s t with
    | Outcome.returned s1 c1 =>
      match run_checks s1 ts with
      | Outcome.returned s2 c2 => Outcome.returned s2 (c1 ++ c2)
      | Outcome.assert_failed s2 => Outcome.assert_failed s2
      | Outcome.out_of_bounds s2 i => Outcome.out_of_bounds s2 i
    | Outcome.assert_failed s1 => Outcome.assert_failed s1
    | Outcome.out_of_bounds s1 i => Outcome.out_of_bounds s1 i

/-! ## Vocabulary of the properties -/

/-- The registered subscribers in registration order: the slots of
`status_callbacks` below `num_callbacks`. -/
def registered (s : State) : List LoraControllerStatusCb :=
  ((List.finRange MAX_REGISTRATED_CALLBACKS).filter (fun i => i.val < s.num_callbacks)).map
    s.status_callbacks

/-- The trace in which every handle of `cbs` is called once, in order, with `arg`. -/
def calls_with (cbs : List LoraControllerStatusCb) (arg : LoraControllerStatus) : List Call :=
  cbs.map (fun cb => (cb, arg))

/-- The module state an outcome carries. -/
def Outcome.state {α : Type} : Outcome α → State
  | Outcome.returned s _ => s
  | Outcome.assert_failed s => s
  | Outcome.out_of_bounds s _ => s

/-! ## Runs of the module -/

/-- What can happen to the module once `lora_controller_init` has started the
two tasks and armed the interrupt handler. -/
inductive Event where
  /-- The application calls `lora_controller_register_connection_callback cb`. -/
  | register (cb : LoraControllerStatusCb)
  /-- The driver calls `on_receive_isr packet_size` after `elapsed` ticks. -/
  | isr (packet_size : Int) (elapsed : Nat)
  /-- The receive worker is scheduled at the top of its loop, the driver holding `fifo`. -/
  | wake (fifo : List Nat)
  /-- The liveness monitor makes one pass of its loop after `elapsed` ticks. -/
  | check (elapsed : Nat)

/-- The module together with what a run has to remember about its tasks. -/
structure Machine where
  /-- The statics of the module. -/
  mod : State
  /-- `lora_receive_task` has not returned. -/
  worker_running : Bool
  /-- The program has stopped: an assertion failed, or the liveness monitor
  called through a slot outside `status_callbacks`. -/
  stopped : Bool
  /-- Every callback invocation made so far, oldest first. -/
  calls : List Call

/-- The machine right after a `lora_controller_init` that left the statics `s`. -/
def Machine.start (s : State) : Machine :=
  { mod := s, worker_running := true, stopped := false, calls := [] }

/-- One event on the machine. A failed assertion stops the program. A task
function that has returned is not scheduled again. When the store of
`lora_controller_register_connection_callback` (`status_callbacks[num_callbacks] = cb`)
falls outside the array, the statement after it, `num_callbacks++`, still runs:
the store is taken to land in memory that holds none of the statics of the
module. -/
def Machine.step (m : Machine) : Event → Machine
  | Event.register cb =>
    if m.stopped then m
    else
      match lora_controller_register_connection_callback m.mod cb with
      | Outcome.returned s _ => { m with mod := s }
      | Outcome.assert_failed s => { m with mod := s, stopped := true }
      | Outcome.out_of_bounds s _ =>
        { m with mod := { s with num_callbacks := (s.num_callbacks + 1) % 256 } }
  | Event.isr packet_size elapsed =>
    if m.stopped then m else { m with mod := on_receive_isr m.mod packet_size elapsed }
  | Event.wake fifo =>
    if m.stopped then m
    else if !m.worker_running then m
    else
      match lora_receive_task_iteration m.mod fifo with
      | WorkerStep.blocked s => { m with mod := s }
      | WorkerStep.looped s _ => { m with mod := s }
      | WorkerStep.halted s _ => { m with mod := s, worker_running := false }
      | WorkerStep.assert_failed s => { m with mod := s, stopped := true }
  | Event.check elapsed =>
    if m.stopped then m
    else
      match lora_state_checker_iteration m.mod elapsed with
      | Outcome.returned s c => { m with mod := s, calls := m.calls ++ c }
      | Outcome.assert_failed s => { m with mod := s, stopped := true }
      | Outcome.out_of_bounds s _ => { m with mod := s, stopped := true }

/-- A run: the events of the list, one after the other. -/
def Machine.run (m : Machine) (evs : List Event) : Machine :=
  evs.foldl Machine.step m

/-- An event that accepts no frame: anything but an interrupt reporting 12 bytes. -/
def Event.accepts_no_frame : Event → Bool
  | Event.isr packet_size _ => decide (packet_size ≠ (LORA_PACKET_LENGTH : Int))
  | _ => true

/-- The interrupt handler called once per entry of the list (reported byte
count, ticks elapsed), in order. -/
def isr_calls (s : State) (frames : List (Int × Nat)) : State :=
  frames.foldl (fun st f => on_receive_isr st f.1 f.2) s

/-! ## The interrupt handler rejects frames of the wrong length -/

/-- C1: for every module state and every reported byte count `n` other than 12,
`on_receive_isr n` leaves the whole module state as it was; in particular the
channel value store and `last_lora_data_ticks` are unchanged and the
notification slot of the receive worker is untouched (nothing is raised). -/
theorem on_receive_isr_wrong_length (s : State) (n : Int) (elapsed : Nat) (h : n ≠ 12) :
    on_receive_isr s n elapsed = s ∧
    (on_receive_isr s n elapsed).channel_values = s.channel_values ∧
    (on_receive_isr s n elapsed).last_lora_data_ticks = s.last_lora_data_ticks ∧
    (on_receive_isr s n elapsed).notify_pending = s.notify_pending ∧
    (on_receive_isr s n elapsed).notify_value = s.notify_value := by
  have hs : on_receive_isr s n elapsed = s := by
    unfold on_receive_isr
    rw [if_pos]
    simpa using h
  simp [hs]

/-- Witness for C1: a frame reported with 11 bytes at tick 5 changes nothing. -/
theorem on_receive_isr_wrong_length_witness :
    (11 : Int) ≠ 12 ∧
    (on_receive_isr State.initial 11 5).last_lora_data_ticks = 0 ∧
    (on_receive_isr State.initial 11 5).notify_pending = false :=
  ⟨by decide,
   (on_receive_isr_wrong_length State.initial 11 5 (by decide)).2.2.1,
   (on_receive_isr_wrong_length State.initial 11 5 (by decide)).2.2.2.1⟩

/-! ## The drain loop and the publish of a frame -/

/-- The drain loop entered at index `i` reads `min fifo.length (12 - i)` bytes,
stores them at `i, i + 1, ...` and leaves the rest of `receive_buf` alone. -/
theorem drain_loop_spec (fifo : List Nat) :
    ∀ (i : Nat) (buf : Fin LORA_PACKET_LENGTH → Nat), i ≤ LORA_PACKET_LENGTH →
      drain_loop fifo i buf =
        (fifo.drop (LORA_PACKET_LENGTH - i),
         i + min fifo.length (LORA_PACKET_LENGTH - i),
         fun j => if i ≤ j.val ∧ j.val < i + fifo.length
                  then fifo.getD (j.val - i) 0 % 256 else buf j) := by
  induction fifo with
  | nil =>
    intro i buf _
    simp only [drain_loop, List.drop_nil, List.length_nil, Nat.zero_min, Nat.add_zero]
    refine Prod.ext rfl (Prod.ext rfl ?_)
    funext j
    have : ¬ (i ≤ j.val ∧ j.val < i) := by omega
    simp [this]
  | cons b rest ih =>
    intro i buf hi
    by_cases h : i < LORA_PACKET_LENGTH
    · rw [drain_loop, dif_pos h, ih (i + 1) _ h]
      have e1 : LORA_PACKET_LENGTH - i = (LORA_PACKET_LENGTH - (i + 1)) + 1 := by omega
      refine Prod.ext ?_ (Prod.ext ?_ ?_)
      · show List.drop _ rest = List.drop _ (b :: rest)
        rw [e1, List.drop_succ_cons]
      · show i + 1 + min rest.length _ = i + min (b :: rest).length _
        simp only [List.length_cons]
        omega
      · show (fun j => _) = (fun j => _)
        funext j
        by_cases hj : j.val = i
        · have hji : j = ⟨i, h⟩ := Fin.ext hj
          subst hji
          simp
        · have hne : j ≠ ⟨i, h⟩ := fun e => hj (by rw [e])
          simp only [Function.update_noteq hne, List.length_cons]
          by_cases hlt : i + 1 ≤ j.val ∧ j.val < i + 1 + rest.length
          · have hlt2 : i ≤ j.val ∧ j.val < i + (rest.length + 1) := by omega
            rw [if_pos hlt, if_pos hlt2]
            have e2 : j.val - i = (j.val - (i + 1)) + 1 := by omega
            rw [e2, List.getD_cons_succ]
          · have hlt2 : ¬ (i ≤ j.val ∧ j.val < i + (rest.length + 1)) := by omega
            rw [if_neg hlt, if_neg hlt2]
    · have hi12 : i = LORA_PACKET_LENGTH := by omega
      subst hi12
      rw [drain_loop, dif_neg h]
      refine Prod.ext ?_ (Prod.ext ?_ ?_)
      · simp
      · simp
      · show buf = fun j => _
        funext j
        have : ¬ (LORA_PACKET_LENGTH ≤ j.val ∧ j.val < LORA_PACKET_LENGTH + (b :: rest).length) := by
          have := j.isLt
          omega
        exact (if_neg this).symm

/-- With a whole frame at the head of the driver the loop reads exactly that frame. -/
theorem drain_loop_frame (b rest : List Nat) (buf : Fin LORA_PACKET_LENGTH → Nat)
    (hlen : b.length = LORA_PACKET_LENGTH) :
    drain_loop (b ++ rest) 0 buf = (rest, LORA_PACKET_LENGTH, fun j => b.getD j.val 0 % 256) := by
  rw [drain_loop_spec _ 0 buf (Nat.zero_le _)]
  refine Prod.ext ?_ (Prod.ext ?_ ?_)
  · show List.drop (LORA_PACKET_LENGTH - 0) (b ++ rest) = rest
    rw [Nat.sub_zero, ← hlen, List.drop_left]
  · show 0 + min (b ++ rest).length (LORA_PACKET_LENGTH - 0) = LORA_PACKET_LENGTH
    rw [List.length_append, hlen]
    omega
  · show (fun j => _) = (fun j => _)
    funext j
    have hj := j.isLt
    have hc : 0 ≤ j.val ∧ j.val < 0 + (b ++ rest).length := by
      rw [List.length_append, hlen]; omega
    dsimp only
    rw [if_pos hc, Nat.sub_zero, List.getD_append _ _ _ _ (by rw [hlen]; exact hj)]

/-- A notified worker that finds a whole frame publishes it and loops. -/
theorem lora_receive_task_iteration_frame (s : State) (b rest : List Nat) (hlen : b.length = 12)
    (hpend : s.notify_pending = true) (hval : s.notify_value = LORA_DATA_NOTIFICATION) :
    lora_receive_task_iteration s (b ++ rest) =
      WorkerStep.looped
        { s with
          notify_pending := false
          receive_buf := fun j => b.getD j.val 0 % 256
          channel_values := memcpy_channel_values (fun j => b.getD j.val 0 % 256) } rest := by
  unfold lora_receive_task_iteration
  simp only [hpend, hval, drain_loop_frame b rest _ hlen]
  simp

/-- C2: the driver holding a 12-byte frame `b` (followed by whatever else it
has) when the notified worker wakes, the worker drains the frame in full and
publishes it; from then on, in any state holding the published store with the
link `LORA_CONTROLLER_CONNECTED`, `lora_controller_get_val i` returns
`b[2i] + 256 * b[2i+1]` for every channel `i < 6`. -/
theorem get_val_decodes_published_frame (s : State) (b rest : List Nat)
    (hlen : b.length = 12) (hbytes : ∀ x ∈ b, x < 256)
    (hpend : s.notify_pending = true) (hval : s.notify_value = LORA_DATA_NOTIFICATION) :
    ∃ s2, lora_receive_task_iteration s (b ++ rest) = WorkerStep.looped s2 rest ∧
      s2.status = s.status ∧
      ∀ s3 : State, s3.channel_values = s2.channel_values →
        s3.status = LORA_CONTROLLER_CONNECTED →
        ∀ i, i < RC_NUM_CHANNELS →
          lora_controller_get_val s3 i =
            Outcome.returned s3 (b.getD (2 * i) 0 + 256 * b.getD (2 * i + 1) 0) := by
  refine ⟨_, lora_receive_task_iteration_frame s b rest hlen hpend hval, rfl, ?_⟩
  intro s3 hcv hconn i hi
  have hb : ∀ k, b.getD k 0 % 256 = b.getD k 0 := by
    intro k
    apply Nat.mod_eq_of_lt
    by_cases hk : k < b.length
    · rw [List.getD_eq_getElem _ _ hk]
      exact hbytes _ (List.getElem_mem _)
    · rw [List.getD_eq_default _ _ (by omega)]
      decide
  unfold lora_controller_get_val
  rw [if_neg (by simp [hconn]), dif_pos hi, hcv]
  simp only [memcpy_channel_values, hb]

/-- Witness for C2 (Scenario A): the frame `[10,0, 20,0, 30,0, 0,0, 0,0, 0,0]`
published while the link is connected reads back as 10, 20, 30, 0, 0, 0. -/
theorem get_val_decodes_published_frame_witness :
    ∃ s2,
      lora_receive_task_iteration
          { State.initial with
            is_initialized := true
            status := LORA_CONTROLLER_CONNECTED
            notify_pending := true
            notify_value := LORA_DATA_NOTIFICATION }
          [10, 0, 20, 0, 30, 0, 0, 0, 0, 0, 0, 0] = WorkerStep.looped s2 [] ∧
      lora_controller_get_val s2 0 = Outcome.returned s2 10 ∧
      lora_controller_get_val s2 1 = Outcome.returned s2 20 ∧
      lora_controller_get_val s2 2 = Outcome.returned s2 30 ∧
      lora_controller_get_val s2 3 = Outcome.returned s2 0 ∧
      lora_controller_get_val s2 4 = Outcome.returned s2 0 ∧
      lora_controller_get_val s2 5 = Outcome.returned s2 0 := by
  obtain ⟨s2, h1, h2, h3⟩ :=
    get_val_decodes_published_frame
      { State.initial with
        is_initialized := true
        status := LORA_CONTROLLER_CONNECTED
        notify_pending := true
        notify_value := LORA_DATA_NOTIFICATION }
      [10, 0, 20, 0, 30, 0, 0, 0, 0, 0, 0, 0] [] (by decide) (by decide) rfl rfl
  exact ⟨s2, h1, h3 s2 rfl h2 0 (by decide), h3 s2 rfl h2 1 (by decide),
    h3 s2 rfl h2 2 (by decide), h3 s2 rfl h2 3 (by decide), h3 s2 rfl h2 4 (by decide),
    h3 s2 rfl h2 5 (by decide)⟩

/-! ## The liveness check -/

/-- An empty registry has no registered subscriber. -/
theorem registered_zero (s : State) (h : s.num_callbacks = 0) : registered s = [] := by
  simp [registered, h, List.finRange]

/-- With one registration the registered subscriber is slot `0`. -/
theorem registered_one (s : State) (h : s.num_callbacks = 1) :
    registered s = [s.status_callbacks 0] := by
  simp [registered, h, List.finRange]

/-- With two registrations the registered subscribers are slot `0`, then slot `1`. -/
theorem registered_two (s : State) (h : s.num_callbacks = 2) :
    registered s = [s.status_callbacks 0, s.status_callbacks 1] := by
  simp [registered, h, List.finRange]

/-- Within the registry the callback loop calls every registered subscriber once, in order. -/
theorem invoke_callbacks_registered (s : State) (arg : LoraControllerStatus)
    (h : s.num_callbacks ≤ MAX_REGISTRATED_CALLBACKS) :
    invoke_callbacks s.status_callbacks arg s.num_callbacks 0 [] =
      Except.ok (calls_with (registered s) arg) := by
  have hle : s.num_callbacks ≤ 2 := h
  have h3 : s.num_callbacks = 0 ∨ s.num_callbacks = 1 ∨ s.num_callbacks = 2 := by omega
  rcases h3 with h0 | h1 | h2
  · rw [registered_zero s h0, h0]; rfl
  · rw [registered_one s h1, h1]; rfl
  · rw [registered_two s h2, h2]; rfl

/-- The pass of the liveness check that takes the link up. -/
theorem checker_connect_step (s : State) (elapsed : Nat)
    (hn : s.num_callbacks ≤ MAX_REGISTRATED_CALLBACKS)
    (hd : s.status = LORA_CONTROLLER_DISCONNECTED)
    (hadv : s.last_lora_data_ticks > s.last_lora_data_checked_ticks) :
    lora_state_checker_iteration s elapsed =
      Outcome.returned
        { s with
          status := LORA_CONTROLLER_CONNECTED
          last_lora_data_checked_ticks := xTaskGetTickCount elapsed }
        (calls_with (registered s) LORA_CONTROLLER_CONNECTED) := by
  unfold lora_state_checker_iteration
  rw [if_pos hadv, if_pos hd]
  have := invoke_callbacks_registered { s with status := LORA_CONTROLLER_CONNECTED }
    LORA_CONTROLLER_CONNECTED hn
  simp only [] at this ⊢
  rw [this]
  rfl

/-- The pass of the liveness check that takes the link down. -/
theorem checker_disconnect_step (s : State) (elapsed : Nat)
    (hn : s.num_callbacks ≤ MAX_REGISTRATED_CALLBACKS)
    (hc : s.status = LORA_CONTROLLER_CONNECTED)
    (hadv : s.last_lora_data_ticks ≤ s.last_lora_data_checked_ticks) :
    lora_state_checker_iteration s elapsed =
      Outcome.returned
        { s with
          status := LORA_CONTROLLER_DISCONNECTED
          last_lora_data_checked_ticks := xTaskGetTickCount elapsed }
        (calls_with (registered s) LORA_CONTROLLER_DISCONNECTED) := by
  unfold lora_state_checker_iteration
  rw [if_neg (Nat.not_lt.mpr hadv), if_pos hc]
  have := invoke_callbacks_registered { s with status := LORA_CONTROLLER_DISCONNECTED }
    LORA_CONTROLLER_DISCONNECTED hn
  simp only [] at this ⊢
  rw [this]
  rfl

/-- A pass that finds the link down and no new timestamp calls nobody. -/
theorem checker_silent_disconnected (s : State) (elapsed : Nat)
    (hd : s.status = LORA_CONTROLLER_DISCONNECTED)
    (hadv : s.last_lora_data_ticks ≤ s.last_lora_data_checked_ticks) :
    lora_state_checker_iteration s elapsed =
      Outcome.returned { s with last_lora_data_checked_ticks := xTaskGetTickCount elapsed } [] := by
  unfold lora_state_checker_iteration
  rw [if_neg (Nat.not_lt.mpr hadv), if_neg (by rw [hd]; decide)]

/-- A pass that finds the link up and a new timestamp calls nobody. -/
theorem checker_silent_connected (s : State) (elapsed : Nat)
    (hc : s.status = LORA_CONTROLLER_CONNECTED)
    (hadv : s.last_lora_data_ticks > s.last_lora_data_checked_ticks) :
    lora_state_checker_iteration s elapsed =
      Outcome.returned { s with last_lora_data_checked_ticks := xTaskGetTickCount elapsed } [] := by
  unfold lora_state_checker_iteration
  rw [if_pos hadv, if_neg (by rw [hc]; decide)]

/-- Within the registry there are exactly `num_callbacks` registered subscribers. -/
theorem registered_length (s : State) (hn : s.num_callbacks ≤ MAX_REGISTRATED_CALLBACKS) :
    (registered s).length = s.num_callbacks := by
  have hle : s.num_callbacks ≤ 2 := hn
  have h3 : s.num_callbacks = 0 ∨ s.num_callbacks = 1 ∨ s.num_callbacks = 2 := by omega
  rcases h3 with h0 | h1 | h2
  · rw [registered_zero s h0, h0]; rfl
  · rw [registered_one s h1, h1]; rfl
  · rw [registered_two s h2, h2]; rfl

/-- The `k`-th registered subscriber is slot `k` of `status_callbacks`. -/
theorem registered_get (s : State) (k : Nat) (hk : k < MAX_REGISTRATED_CALLBACKS)
    (hkn : k < s.num_callbacks) (hn : s.num_callbacks ≤ MAX_REGISTRATED_CALLBACKS) :
    (registered s)[k]? = some (s.status_callbacks ⟨k, hk⟩) := by
  have hle : s.num_callbacks ≤ 2 := hn
  have h3 : s.num_callbacks = 1 ∨ s.num_callbacks = 2 := by omega
  rcases h3 with h1 | h2
  · rw [registered_one s h1]
    have hk0 : k = 0 := by omega
    subst hk0; rfl
  · rw [registered_two s h2]
    have hk0 : k = 0 ∨ k = 1 := by omega
    rcases hk0 with e | e <;> subst e <;> rfl

/-- A registration that returns was made on an initialised module with a free slot,
which it filled. -/
theorem register_returned (s s1 : State) (cb : LoraControllerStatusCb) (u : Unit)
    (h : lora_controller_register_connection_callback s cb = Outcome.returned s1 u) :
    s.is_initialized = true ∧
      ∃ hlt : s.num_callbacks < MAX_REGISTRATED_CALLBACKS,
        s1 = { s with
               status_callbacks := Function.update s.status_callbacks ⟨s.num_callbacks, hlt⟩ cb
               num_callbacks := (s.num_callbacks + 1) % 256 } := by
  unfold lora_controller_register_connection_callback at h
  split_ifs at h with h1 h2 h3
  · have hi : s.is_initialized = true := by simpa using h2
    refine ⟨hi, h3, ?_⟩
    injection h with hs _
    exact hs.symm

/-- Two registrations into an empty registry leave exactly those two, in that order. -/
theorem registered_after_two (s0 s1 s : State) (a b : LoraControllerStatusCb)
    (h0 : s0.num_callbacks = 0)
    (ha : lora_controller_register_connection_callback s0 a = Outcome.returned s1 ())
    (hb : lora_controller_register_connection_callback s1 b = Outcome.returned s ()) :
    s.num_callbacks = 2 ∧ registered s = [a, b] ∧ s.status = s0.status ∧
      s.last_lora_data_ticks = s0.last_lora_data_ticks ∧
      s.last_lora_data_checked_ticks = s0.last_lora_data_checked_ticks := by
  obtain ⟨_, hlt1, e1⟩ := register_returned s0 s1 a () ha
  obtain ⟨_, hlt2, e2⟩ := register_returned s1 s b () hb
  subst e1
  subst e2
  refine ⟨by simp [h0], ?_, rfl, rfl, rfl⟩
  rw [registered_two _ (by simp [h0])]
  simp [Function.update, h0, Fin.ext_iff]

/-- Within the registry (`num_callbacks ≤ 2`), with the link
`LORA_CONTROLLER_DISCONNECTED` and
`last_lora_data_ticks > last_lora_data_checked_ticks`, one liveness check
returns with the link `LORA_CONTROLLER_CONNECTED` and a call trace that holds
every registered subscriber exactly once, in registration order (slot `0`, then
slot `1`), each with the argument `LORA_CONTROLLER_CONNECTED`; after registering
`a` then `b` into an empty registry the trace is `[a(Connected), b(Connected)]`. -/
theorem checker_connects_and_notifies (s : State) (elapsed : Nat)
    (hn : s.num_callbacks ≤ MAX_REGISTRATED_CALLBACKS)
    (hd : s.status = LORA_CONTROLLER_DISCONNECTED)
    (hadv : s.last_lora_data_ticks > s.last_lora_data_checked_ticks) :
    lora_state_checker_iteration s elapsed =
      Outcome.returned
        { s with
          status := LORA_CONTROLLER_CONNECTED
          last_lora_data_checked_ticks := xTaskGetTickCount elapsed }
        (calls_with (registered s) LORA_CONTROLLER_CONNECTED) ∧
    (registered s).length = s.num_callbacks ∧
    (∀ k (hk : k < MAX_REGISTRATED_CALLBACKS), k < s.num_callbacks →
      (registered s)[k]? = some (s.status_callbacks ⟨k, hk⟩)) ∧
    (∀ (s0 s1 : State) (a b : LoraControllerStatusCb), s0.num_callbacks = 0 →
      lora_controller_register_connection_callback s0 a = Outcome.returned s1 () →
      lora_controller_register_connection_callback s1 b = Outcome.returned s () →
      lora_state_checker_iteration s elapsed =
        Outcome.returned
          { s with
            status := LORA_CONTROLLER_CONNECTED
            last_lora_data_checked_ticks := xTaskGetTickCount elapsed }
          [(a, LORA_CONTROLLER_CONNECTED), (b, LORA_CONTROLLER_CONNECTED)]) := by
  refine ⟨checker_connect_step s elapsed hn hd hadv, registered_length s hn,
    fun k hk hkn => registered_get s k hk hkn hn, ?_⟩
  intro s0 s1 a b h0 ha hb
  rw [checker_connect_step s elapsed hn hd hadv,
    (registered_after_two s0 s1 s a b h0 ha hb).2.1]
  rfl

/-- Scenario C within the registry: subscribers 7 and 9 registered in that order,
a frame stamped at tick 5 and the link disconnected: the check calls 7, then 9. -/
theorem checker_connects_and_notifies_witness :
    lora_state_checker_iteration
        { State.initial with
          is_initialized := true
          status_callbacks := fun i => if i.val = 0 then 7 else 9
          num_callbacks := 2
          last_lora_data_ticks := 5 } 2000 =
      Outcome.returned
        { State.initial with
          is_initialized := true
          status_callbacks := fun i => if i.val = 0 then 7 else 9
          num_callbacks := 2
          last_lora_data_ticks := 5
          status := LORA_CONTROLLER_CONNECTED
          last_lora_data_checked_ticks := 2000 }
        [(7, LORA_CONTROLLER_CONNECTED), (9, LORA_CONTROLLER_CONNECTED)] :=
  (checker_connects_and_notifies
    { State.initial with
      is_initialized := true
      status_callbacks := fun i => if i.val = 0 then 7 else 9
      num_callbacks := 2
      last_lora_data_ticks := 5 } 2000 (by decide) rfl (by decide)).1

/-- Within the registry (`num_callbacks ≤ 2`), with the link
`LORA_CONTROLLER_CONNECTED` and
`last_lora_data_ticks ≤ last_lora_data_checked_ticks`, one liveness check
returns with the link `LORA_CONTROLLER_DISCONNECTED` and a call trace that
holds every registered subscriber exactly once, in registration order, each
with the argument `LORA_CONTROLLER_DISCONNECTED`. -/
theorem checker_disconnects_and_notifies (s : State) (elapsed : Nat)
    (hn : s.num_callbacks ≤ MAX_REGISTRATED_CALLBACKS)
    (hc : s.status = LORA_CONTROLLER_CONNECTED)
    (hadv : s.last_lora_data_ticks ≤ s.last_lora_data_checked_ticks) :
    lora_state_checker_iteration s elapsed =
      Outcome.returned
        { s with
          status := LORA_CONTROLLER_DISCONNECTED
          last_lora_data_checked_ticks := xTaskGetTickCount elapsed }
        (calls_with (registered s) LORA_CONTROLLER_DISCONNECTED) ∧
    (registered s).length = s.num_callbacks ∧
    (∀ k (hk : k < MAX_REGISTRATED_CALLBACKS), k < s.num_callbacks →
      (registered s)[k]? = some (s.status_callbacks ⟨k, hk⟩)) :=
  ⟨checker_disconnect_step s elapsed hn hc hadv, registered_length s hn,
    fun k hk hkn => registered_get s k hk hkn hn⟩

/-- Within the registry: subscribers 7 and 9, the link connected, the last frame
stamped at tick 5 and the last check at tick 2000: the check at tick 4000
disconnects and calls 7, then 9. -/
theorem checker_disconnects_and_notifies_witness :
    lora_state_checker_iteration
        { State.initial with
          is_initialized := true
          status_callbacks := fun i => if i.val = 0 then 7 else 9
          num_callbacks := 2
          status := LORA_CONTROLLER_CONNECTED
          last_lora_data_ticks := 5
          last_lora_data_checked_ticks := 2000 } 4000 =
      Outcome.returned
        { State.initial with
          is_initialized := true
          status_callbacks := fun i => if i.val = 0 then 7 else 9
          num_callbacks := 2
          status := LORA_CONTROLLER_DISCONNECTED
          last_lora_data_ticks := 5
          last_lora_data_checked_ticks := 4000 }
        [(7, LORA_CONTROLLER_DISCONNECTED), (9, LORA_CONTROLLER_DISCONNECTED)] :=
  (checker_disconnects_and_notifies
    { State.initial with
      is_initialized := true
      status_callbacks := fun i => if i.val = 0 then 7 else 9
      num_callbacks := 2
      status := LORA_CONTROLLER_CONNECTED
      last_lora_data_ticks := 5
      last_lora_data_checked_ticks := 2000 } 4000 (by decide) rfl (by decide)).1

/-! ## Checks that cross no transition -/

/-- Consecutive checks on a disconnected link, none of which sees the receive
timestamp ahead of the tick recorded by the check before it, call nobody and
leave the link disconnected, the timestamp and everything but the recorded
check tick untouched. -/
theorem run_checks_silent (ts : List Nat) :
    ∀ s : State, s.status = LORA_CONTROLLER_DISCONNECTED →
      s.last_lora_data_ticks ≤ s.last_lora_data_checked_ticks →
      (∀ t ∈ ts.dropLast, s.last_lora_data_ticks ≤ xTaskGetTickCount t) →
      ∃ c, run_checks s ts =
        Outcome.returned { s with last_lora_data_checked_ticks := c } [] := by
  induction ts with
  | nil =>
    intro s _ _ _
    exact ⟨s.last_lora_data_checked_ticks, rfl⟩
  | cons t ts ih =>
    intro s hd hle hall
    have hstep := checker_silent_disconnected s t hd hle
    cases ts with
    | nil =>
      refine ⟨xTaskGetTickCount t, ?_⟩
      simp only [run_checks, hstep]
      rfl
    | cons t2 ts2 =>
      have hall2 : ∀ u ∈ t :: (t2 :: ts2).dropLast, s.last_lora_data_ticks ≤ xTaskGetTickCount u := by
        simpa [List.dropLast] using hall
      obtain ⟨c, hc⟩ := ih { s with last_lora_data_checked_ticks := xTaskGetTickCount t } hd
        (hall2 t (List.mem_cons_self _ _))
        (fun u hu => hall2 u (List.mem_cons_of_mem _ hu))
      refine ⟨c, ?_⟩
      rw [run_checks, hstep]
      simp only []
      rw [hc]
      rfl

/-- C5 (amended): a liveness check that crosses no transition is silent. A
check on a disconnected link whose timestamp has not advanced, and a check on
a connected link whose timestamp has advanced, return an empty call trace and
change only the recorded check tick (the link state stays as it was); hence
any number of consecutive checks with no new frame on such a disconnected
link, the tick read at each check but the last being no less than the receive
timestamp (the 32-bit tick counter has not wrapped below it), return an empty
call trace and leave the link disconnected. -/
theorem checks_without_transition_are_silent (s : State) (elapsed : Nat) (ts : List Nat) :
    (s.status = LORA_CONTROLLER_DISCONNECTED →
      s.last_lora_data_ticks ≤ s.last_lora_data_checked_ticks →
      lora_state_checker_iteration s elapsed =
        Outcome.returned
          { s with last_lora_data_checked_ticks := xTaskGetTickCount elapsed } []) ∧
    (s.status = LORA_CONTROLLER_CONNECTED →
      s.last_lora_data_ticks > s.last_lora_data_checked_ticks →
      lora_state_checker_iteration s elapsed =
        Outcome.returned
          { s with last_lora_data_checked_ticks := xTaskGetTickCount elapsed } []) ∧
    (s.status = LORA_CONTROLLER_DISCONNECTED →
      s.last_lora_data_ticks ≤ s.last_lora_data_checked_ticks →
      (∀ t ∈ ts.dropLast, s.last_lora_data_ticks ≤ xTaskGetTickCount t) →
      ∃ s2, run_checks s ts = Outcome.returned s2 [] ∧
        s2.status = LORA_CONTROLLER_DISCONNECTED ∧
        s2.last_lora_data_ticks = s.last_lora_data_ticks ∧
        s2.num_callbacks = s.num_callbacks ∧
        s2.status_callbacks = s.status_callbacks ∧
        s2.channel_values = s.channel_values) := by
  refine ⟨checker_silent_disconnected s elapsed, checker_silent_connected s elapsed, ?_⟩
  intro hd hle hall
  obtain ⟨c, hc⟩ := run_checks_silent ts s hd hle hall
  exact ⟨_, hc, hd, rfl, rfl, rfl, rfl⟩

/-- Witness for C5: with the last frame stamped at tick 5 and the link
disconnected since the check at tick 6000, the checks at ticks 8000, 10000 and
12000 call nobody; and a connected link with a fresh timestamp stays connected
silently. -/
theorem checks_without_transition_are_silent_witness :
    (∃ s2,
      run_checks
          { State.initial with
            is_initialized := true
            status_callbacks := fun i => if i.val = 0 then 7 else 9
            num_callbacks := 2
            last_lora_data_ticks := 5
            last_lora_data_checked_ticks := 6000 } [8000, 10000, 12000] =
        Outcome.returned s2 [] ∧
      s2.status = LORA_CONTROLLER_DISCONNECTED) ∧
    lora_state_checker_iteration
        { State.initial with
          is_initialized := true
          status_callbacks := fun i => if i.val = 0 then 7 else 9
          num_callbacks := 2
          status := LORA_CONTROLLER_CONNECTED
          last_lora_data_ticks := 7000
          last_lora_data_checked_ticks := 6000 } 8000 =
      Outcome.returned
        { State.initial with
          is_initialized := true
          status_callbacks := fun i => if i.val = 0 then 7 else 9
          num_callbacks := 2
          status := LORA_CONTROLLER_CONNECTED
          last_lora_data_ticks := 7000
          last_lora_data_checked_ticks := 8000 } [] := by
  refine ⟨?_, ?_⟩
  · obtain ⟨s2, h, hs, _⟩ :=
      (checks_without_transition_are_silent
        { State.initial with
          is_initialized := true
          status_callbacks := fun i => if i.val = 0 then 7 else 9
          num_callbacks := 2
          last_lora_data_ticks := 5
          last_lora_data_checked_ticks := 6000 } 0 [8000, 10000, 12000]).2.2 rfl (by decide)
        (by decide)
    exact ⟨s2, h, hs⟩
  · exact (checks_without_transition_are_silent
        { State.initial with
          is_initialized := true
          status_callbacks := fun i => if i.val = 0 then 7 else 9
          num_callbacks := 2
          status := LORA_CONTROLLER_CONNECTED
          last_lora_data_ticks := 7000
          last_lora_data_checked_ticks := 6000 } 8000 []).2.1 rfl (by decide)

/-- C5 as stated fails when the 32-bit tick counter wraps around. The link is
disconnected, the last frame was stamped at tick 4294965000 and the last check
recorded tick 4294967100, so the timestamp has not advanced. No frame arrives.
The check made after 4294969100 ticks reads the wrapped counter 1804 and is
silent; the check made after 4294971100 ticks finds the old timestamp above
1804, takes the link up and calls both subscribers. -/
theorem consecutive_checks_counterexample :
    ({ State.initial with
        is_initialized := true
        status_callbacks := fun i => if i.val = 0 then 7 else 9
        num_callbacks := 2
        last_lora_data_ticks := 4294965000
        last_lora_data_checked_ticks := 4294967100 } : State).status =
      LORA_CONTROLLER_DISCONNECTED ∧
    (4294965000 : Nat) ≤ 4294967100 ∧
    run_checks
        { State.initial with
          is_initialized := true
          status_callbacks := fun i => if i.val = 0 then 7 else 9
          num_callbacks := 2
          last_lora_data_ticks := 4294965000
          last_lora_data_checked_ticks := 4294967100 } [4294969100, 4294971100] =
      Outcome.returned
        { State.initial with
          is_initialized := true
          status_callbacks := fun i => if i.val = 0 then 7 else 9
          num_callbacks := 2
          status := LORA_CONTROLLER_CONNECTED
          last_lora_data_ticks := 4294965000
          last_lora_data_checked_ticks := 3804 }
        [(7, LORA_CONTROLLER_CONNECTED), (9, LORA_CONTROLLER_CONNECTED)] :=
  ⟨rfl, by decide, rfl⟩

/-! ## The subscriber registry and the accessor -/

/-- C6: the code at the claim's input. After a successful init and the
registrations of 11 and 22 the registry is full (`num_callbacks = 2`). The
third registration is not stopped by `assert(num_callbacks <= 2)`: no
assertion fails, and the call goes on to the store `status_callbacks[2] = 33`,
outside the 2-element array. -/
theorem third_registration_writes_outside_registry :
    lora_controller_init State.initial true true true =
      Outcome.returned { State.initial with is_initialized := true } () ∧
    lora_controller_register_connection_callback { State.initial with is_initialized := true } 11 =
      Outcome.returned
        { State.initial with
          is_initialized := true
          status_callbacks := Function.update (fun _ => 0) ⟨0, by decide⟩ 11
          num_callbacks := 1 } () ∧
    lora_controller_register_connection_callback
        { State.initial with
          is_initialized := true
          status_callbacks := Function.update (fun _ => 0) ⟨0, by decide⟩ 11
          num_callbacks := 1 } 22 =
      Outcome.returned
        { State.initial with
          is_initialized := true
          status_callbacks :=
            Function.update (Function.update (fun _ => 0) ⟨0, by decide⟩ 11) ⟨1, by decide⟩ 22
          num_callbacks := 2 } () ∧
    lora_controller_register_connection_callback
        { State.initial with
          is_initialized := true
          status_callbacks :=
            Function.update (Function.update (fun _ => 0) ⟨0, by decide⟩ 11) ⟨1, by decide⟩ 22
          num_callbacks := 2 } 33 =
      Outcome.out_of_bounds
        { State.initial with
          is_initialized := true
          status_callbacks :=
            Function.update (Function.update (fun _ => 0) ⟨0, by decide⟩ 11) ⟨1, by decide⟩ 22
          num_callbacks := 2 } 2 ∧
    ¬ ∃ s3,
      lora_controller_register_connection_callback
        { State.initial with
          is_initialized := true
          status_callbacks :=
            Function.update (Function.update (fun _ => 0) ⟨0, by decide⟩ 11) ⟨1, by decide⟩ 22
          num_callbacks := 2 } 33 =
      Outcome.assert_failed s3 := by
  refine ⟨rfl, rfl, rfl, rfl, ?_⟩
  rintro ⟨s3, h⟩
  have e : lora_controller_register_connection_callback
        { State.initial with
          is_initialized := true
          status_callbacks :=
            Function.update (Function.update (fun _ => 0) ⟨0, by decide⟩ 11) ⟨1, by decide⟩ 22
          num_callbacks := 2 } 33 =
      Outcome.out_of_bounds
        { State.initial with
          is_initialized := true
          status_callbacks :=
            Function.update (Function.update (fun _ => 0) ⟨0, by decide⟩ 11) ⟨1, by decide⟩ 22
          num_callbacks := 2 } 2 := rfl
  exact Outcome.noConfusion (e.symm.trans h)

/-- C7: `lora_controller_get_val channel` is refused by an assertion exactly
when `channel ≥ RC_NUM_CHANNELS` or the link is not
`LORA_CONTROLLER_CONNECTED`; otherwise it returns the stored value of that
channel and leaves the module state as it was. In either case the state it
ends in is the state it started in. -/
theorem get_val_contract (s : State) (channel : Nat) :
    ((∃ s2, lora_controller_get_val s channel = Outcome.assert_failed s2) ↔
      (channel ≥ RC_NUM_CHANNELS ∨ s.status ≠ LORA_CONTROLLER_CONNECTED)) ∧
    (∀ h : channel < RC_NUM_CHANNELS, s.status = LORA_CONTROLLER_CONNECTED →
      lora_controller_get_val s channel =
        Outcome.returned s (s.channel_values ⟨channel, h⟩)) ∧
    ((channel ≥ RC_NUM_CHANNELS ∨ s.status ≠ LORA_CONTROLLER_CONNECTED) →
      lora_controller_get_val s channel = Outcome.assert_failed s) := by
  have hret : ∀ h : channel < RC_NUM_CHANNELS, s.status = LORA_CONTROLLER_CONNECTED →
      lora_controller_get_val s channel =
        Outcome.returned s (s.channel_values ⟨channel, h⟩) := by
    intro h hc
    unfold lora_controller_get_val
    rw [if_neg (not_not.mpr hc), dif_pos h]
  have hfail : (channel ≥ RC_NUM_CHANNELS ∨ s.status ≠ LORA_CONTROLLER_CONNECTED) →
      lora_controller_get_val s channel = Outcome.assert_failed s := by
    intro h
    unfold lora_controller_get_val
    by_cases hc : s.status = LORA_CONTROLLER_CONNECTED
    · rcases h with h | h
      · rw [if_neg (not_not.mpr hc), dif_neg (Nat.not_lt.mpr h)]
      · exact absurd hc h
    · rw [if_pos hc]
  refine ⟨⟨?_, fun h => ⟨s, hfail h⟩⟩, hret, hfail⟩
  rintro ⟨s2, h2⟩
  by_contra hcon
  push_neg at hcon
  rw [hret hcon.1 hcon.2] at h2
  exact Outcome.noConfusion h2

/-- Witness for C7: with the link connected channel 2 is read and channel 6 is
refused; with the link disconnected channel 2 is refused. -/
theorem get_val_contract_witness :
    lora_controller_get_val
        { State.initial with
          status := LORA_CONTROLLER_CONNECTED
          channel_values := fun i => 100 + i.val } 2 =
      Outcome.returned
        { State.initial with
          status := LORA_CONTROLLER_CONNECTED
          channel_values := fun i => 100 + i.val } 102 ∧
    lora_controller_get_val
        { State.initial with
          status := LORA_CONTROLLER_CONNECTED
          channel_values := fun i => 100 + i.val } 6 =
      Outcome.assert_failed
        { State.initial with
          status := LORA_CONTROLLER_CONNECTED
          channel_values := fun i => 100 + i.val } ∧
    lora_controller_get_val State.initial 2 = Outcome.assert_failed State.initial :=
  ⟨(get_val_contract
      { State.initial with
        status := LORA_CONTROLLER_CONNECTED
        channel_values := fun i => 100 + i.val } 2).2.1 (by decide) rfl,
   (get_val_contract
      { State.initial with
        status := LORA_CONTROLLER_CONNECTED
        channel_values := fun i => 100 + i.val } 6).2.2 (Or.inl (by decide)),
   (get_val_contract State.initial 2).2.2 (Or.inr (by decide))⟩

/-- Registration on an uninitialised module fails an assertion, whatever the count. -/
theorem register_uninitialized (s : State) (cb : LoraControllerStatusCb)
    (h : s.is_initialized = false) :
    lora_controller_register_connection_callback s cb = Outcome.assert_failed s := by
  unfold lora_controller_register_connection_callback
  by_cases hn : s.num_callbacks ≤ MAX_REGISTRATED_CALLBACKS
  · rw [if_neg (not_not.mpr hn), if_pos (by simp [h])]
  · rw [if_pos hn]

/-- C9: in every state in which the module is not initialised,
`lora_controller_register_connection_callback` fails an assertion with the
module state, the registry included, as it was. A `lora_controller_init` whose
`LoRa.begin` fails returns with `is_initialized` still false, and registration
is refused in the state it leaves. -/
theorem register_refused_before_init (s : State) (cb : LoraControllerStatusCb)
    (create_checker_ok create_receive_ok : Bool) (h : s.is_initialized = false) :
    lora_controller_register_connection_callback s cb = Outcome.assert_failed s ∧
    ∃ s1, lora_controller_init s false create_checker_ok create_receive_ok =
        Outcome.returned s1 () ∧
      s1.is_initialized = false ∧
      lora_controller_register_connection_callback s1 cb = Outcome.assert_failed s1 := by
  refine ⟨register_uninitialized s cb h,
    { s with channel_values := fun _ => 0, num_callbacks := 0 }, ?_, h, ?_⟩
  · unfold lora_controller_init
    rw [if_neg (by simp [h])]
    rfl
  · exact register_uninitialized _ cb h

/-- Witness for C9: registration at program start, and after an init whose
radio bring-up failed, is refused. -/
theorem register_refused_before_init_witness :
    lora_controller_register_connection_callback State.initial 7 =
      Outcome.assert_failed State.initial ∧
    ∃ s1, lora_controller_init State.initial false true true = Outcome.returned s1 () ∧
      s1.is_initialized = false ∧
      lora_controller_register_connection_callback s1 7 = Outcome.assert_failed s1 :=
  register_refused_before_init State.initial 7 true true rfl

/-- A registration on an initialised module with a free slot returns. -/
theorem register_free_slot (s : State) (cb : LoraControllerStatusCb)
    (hi : s.is_initialized = true) (hlt : s.num_callbacks < MAX_REGISTRATED_CALLBACKS) :
    lora_controller_register_connection_callback s cb =
      Outcome.returned
        { s with
          status_callbacks := Function.update s.status_callbacks ⟨s.num_callbacks, hlt⟩ cb
          num_callbacks := s.num_callbacks + 1 } () := by
  have hlt2 : s.num_callbacks < 2 := hlt
  have hmod : (s.num_callbacks + 1) % 256 = s.num_callbacks + 1 := by omega
  unfold lora_controller_register_connection_callback
  rw [if_neg (not_not.mpr (Nat.le_of_lt hlt)), if_neg (not_not.mpr hi), dif_pos hlt, hmod]

/-- A registration into a free slot puts the callback at the end of the list. -/
theorem registered_append (s : State) (cb : LoraControllerStatusCb)
    (hlt : s.num_callbacks < MAX_REGISTRATED_CALLBACKS) :
    registered
        { s with
          status_callbacks := Function.update s.status_callbacks ⟨s.num_callbacks, hlt⟩ cb
          num_callbacks := s.num_callbacks + 1 } =
      registered s ++ [cb] := by
  have hlt2 : s.num_callbacks < 2 := hlt
  have h2 : s.num_callbacks = 0 ∨ s.num_callbacks = 1 := by omega
  rcases h2 with h0 | h1
  · rw [registered_zero s h0, registered_one _ (by simp [h0])]
    simp [Function.update, h0, Fin.ext_iff]
  · rw [registered_one s h1, registered_two _ (by simp [h1])]
    simp [Function.update, h1, Fin.ext_iff]

/-- C10: on an initialised module holding fewer than 2 subscribers,
`lora_controller_register_connection_callback cb` returns having put `cb` at
the end of the subscriber list: the count grows by one, the new entry is in
slot `num_callbacks`, every other slot keeps its value and the list of
registered subscribers is the old one followed by `cb`. Nothing is
deduplicated: registering `cb` twice into an empty registry leaves the two
entries `cb, cb`, and a check that crosses a transition then calls `cb` twice. -/
theorem register_appends_without_dedup (s : State) (cb : LoraControllerStatusCb)
    (elapsed : Nat) (hi : s.is_initialized = true)
    (hlt : s.num_callbacks < MAX_REGISTRATED_CALLBACKS) :
    ∃ s1, lora_controller_register_connection_callback s cb = Outcome.returned s1 () ∧
      s1.num_callbacks = s.num_callbacks + 1 ∧
      registered s1 = registered s ++ [cb] ∧
      s1.status_callbacks ⟨s.num_callbacks, hlt⟩ = cb ∧
      (∀ j : Fin MAX_REGISTRATED_CALLBACKS, j.val ≠ s.num_callbacks →
        s1.status_callbacks j = s.status_callbacks j) ∧
      (s.num_callbacks = 0 →
        ∃ s2, lora_controller_register_connection_callback s1 cb = Outcome.returned s2 () ∧
          s2.num_callbacks = 2 ∧
          registered s2 = [cb, cb] ∧
          (s2.status = LORA_CONTROLLER_DISCONNECTED →
            s2.last_lora_data_ticks > s2.last_lora_data_checked_ticks →
            lora_state_checker_iteration s2 elapsed =
              Outcome.returned
                { s2 with
                  status := LORA_CONTROLLER_CONNECTED
                  last_lora_data_checked_ticks := xTaskGetTickCount elapsed }
                [(cb, LORA_CONTROLLER_CONNECTED), (cb, LORA_CONTROLLER_CONNECTED)]) ∧
          (s2.status = LORA_CONTROLLER_CONNECTED →
            s2.last_lora_data_ticks ≤ s2.last_lora_data_checked_ticks →
            lora_state_checker_iteration s2 elapsed =
              Outcome.returned
                { s2 with
                  status := LORA_CONTROLLER_DISCONNECTED
                  last_lora_data_checked_ticks := xTaskGetTickCount elapsed }
                [(cb, LORA_CONTROLLER_DISCONNECTED), (cb, LORA_CONTROLLER_DISCONNECTED)])) := by
  refine ⟨_, register_free_slot s cb hi hlt, rfl, registered_append s cb hlt, ?_, ?_, ?_⟩
  · simp
  · intro j hj
    have hne : j ≠ ⟨s.num_callbacks, hlt⟩ := fun e => hj (by rw [e])
    simp [Function.update_noteq hne]
  · intro h0
    have hs1 := register_free_slot s cb hi hlt
    have hlt1 : s.num_callbacks + 1 < MAX_REGISTRATED_CALLBACKS := by
      show s.num_callbacks + 1 < 2
      omega
    have hs2 := register_free_slot
      { s with
        status_callbacks := Function.update s.status_callbacks ⟨s.num_callbacks, hlt⟩ cb
        num_callbacks := s.num_callbacks + 1 } cb hi hlt1
    have hreg := registered_after_two s _ _ cb cb h0 hs1 hs2
    refine ⟨_, hs2, hreg.1, hreg.2.1, ?_, ?_⟩
    · intro hd hadv
      rw [checker_connect_step _ elapsed (by rw [hreg.1]) hd hadv, hreg.2.1]
      rfl
    · intro hc hadv
      rw [checker_disconnect_step _ elapsed (by rw [hreg.1]) hc hadv, hreg.2.1]
      rfl

/-- Witness for C10: after a successful init, registering 7 twice leaves the
entries 7, 7. -/
theorem register_appends_without_dedup_witness :
    ∃ s1,
      lora_controller_register_connection_callback
          { State.initial with is_initialized := true } 7 = Outcome.returned s1 () ∧
      s1.num_callbacks = 1 ∧
      registered s1 = [7] ∧
      ∃ s2, lora_controller_register_connection_callback s1 7 = Outcome.returned s2 () ∧
        s2.num_callbacks = 2 ∧ registered s2 = [7, 7] := by
  obtain ⟨s1, h1, hn, hr, _, _, h2⟩ :=
    register_appends_without_dedup { State.initial with is_initialized := true } 7 0 rfl
      (by decide)
  obtain ⟨s2, h3, hn2, hr2, _⟩ := h2 rfl
  exact ⟨s1, h1, hn, hr, s2, h3, hn2, hr2⟩

/-! ## A frame between two checks -/

/-- Within the registry every pass of the liveness check returns; it records
the tick it reads and touches neither the registry nor the receive timestamp. -/
theorem checker_returns (s : State) (elapsed : Nat)
    (hn : s.num_callbacks ≤ MAX_REGISTRATED_CALLBACKS) :
    ∃ s1 c1, lora_state_checker_iteration s elapsed = Outcome.returned s1 c1 ∧
      s1.last_lora_data_checked_ticks = xTaskGetTickCount elapsed ∧
      s1.last_lora_data_ticks = s.last_lora_data_ticks ∧
      s1.num_callbacks = s.num_callbacks ∧
      s1.status_callbacks = s.status_callbacks := by
  by_cases hadv : s.last_lora_data_ticks > s.last_lora_data_checked_ticks
  · by_cases hd : s.status = LORA_CONTROLLER_DISCONNECTED
    · exact ⟨_, _, checker_connect_step s elapsed hn hd hadv, rfl, rfl, rfl, rfl⟩
    · have hc : s.status = LORA_CONTROLLER_CONNECTED := by
        cases hs : s.status
        · exact absurd hs hd
        · rfl
      exact ⟨_, _, checker_silent_connected s elapsed hc hadv, rfl, rfl, rfl, rfl⟩
  · have hle : s.last_lora_data_ticks ≤ s.last_lora_data_checked_ticks := Nat.le_of_not_lt hadv
    by_cases hd : s.status = LORA_CONTROLLER_DISCONNECTED
    · exact ⟨_, _, checker_silent_disconnected s elapsed hd hle, rfl, rfl, rfl, rfl⟩
    · have hc : s.status = LORA_CONTROLLER_CONNECTED := by
        cases hs : s.status
        · exact absurd hs hd
        · rfl
      exact ⟨_, _, checker_disconnect_step s elapsed hn hc hle, rfl, rfl, rfl, rfl⟩

/-- The registered subscribers depend on the registry alone. -/
theorem registered_congr (s1 s2 : State) (hn : s1.num_callbacks = s2.num_callbacks)
    (hc : s1.status_callbacks = s2.status_callbacks) : registered s1 = registered s2 := by
  unfold registered
  rw [hn, hc]

/-- An accepted frame stamps the current tick and leaves registry and link state alone. -/
theorem on_receive_isr_accept (s : State) (elapsed : Nat) :
    on_receive_isr s 12 elapsed =
      { s with
        last_lora_data_ticks := xTaskGetTickCountFromISR elapsed
        notify_pending := true
        notify_value := LORA_DATA_NOTIFICATION } := by
  unfold on_receive_isr
  rw [if_neg (by decide)]

/-- A frame accepted at a tick `tf` above the recorded check tick, the counter
not wrapping up to the next check at `t2 ≥ tf`: that check ends connected
(calling the subscribers if the link was down) and, no further frame being
accepted, the check after it disconnects and calls the subscribers. -/
theorem frame_then_two_checks (s1 : State) (tf t2 t3 : Nat)
    (hn : s1.num_callbacks ≤ MAX_REGISTRATED_CALLBACKS)
    (h1 : s1.last_lora_data_checked_ticks < tf) (h2 : tf ≤ t2) (h3 : t2 < TICK_MODULUS) :
    ∃ s3, lora_state_checker_iteration (on_receive_isr s1 12 tf) t2 =
        Outcome.returned s3
          (if s1.status = LORA_CONTROLLER_DISCONNECTED
           then calls_with (registered s1) LORA_CONTROLLER_CONNECTED else []) ∧
      s3.status = LORA_CONTROLLER_CONNECTED ∧
      ∃ s4, lora_state_checker_iteration s3 t3 =
          Outcome.returned s4 (calls_with (registered s1) LORA_CONTROLLER_DISCONNECTED) ∧
        s4.status = LORA_CONTROLLER_DISCONNECTED := by
  have htf : xTaskGetTickCountFromISR tf = tf :=
    Nat.mod_eq_of_lt (Nat.lt_of_le_of_lt h2 h3)
  have ht2 : xTaskGetTickCount t2 = t2 := Nat.mod_eq_of_lt h3
  rw [on_receive_isr_accept, htf]
  by_cases hd : s1.status = LORA_CONTROLLER_DISCONNECTED
  · rw [if_pos hd]
    refine ⟨_, checker_connect_step _ t2 hn hd h1, rfl, ?_⟩
    refine ⟨_, checker_disconnect_step _ t3 hn rfl ?_, rfl⟩
    show tf ≤ xTaskGetTickCount t2
    rw [ht2]; exact h2
  · have hc : s1.status = LORA_CONTROLLER_CONNECTED := by
      cases hs : s1.status
      · exact absurd hs hd
      · rfl
    rw [if_neg hd]
    refine ⟨_, checker_silent_connected _ t2 hc h1, hc, ?_⟩
    refine ⟨_, checker_disconnect_step _ t3 hn hc ?_, rfl⟩
    show tf ≤ xTaskGetTickCount t2
    rw [ht2]; exact h2

/-- C8 (amended): let a liveness check record tick `t1`, let a 12-byte frame
be accepted by the interrupt handler at a tick `tf` strictly later than `t1`,
and let the next check run at `t2 ≥ tf`, the 32-bit counter not having wrapped
(`t2 < 2 ^ 32`), with the subscriber count within the registry. Then the next
check ends with the link connected, its trace holding one Connected call per
subscriber if the link was down and no call otherwise; and, no further frame
being accepted, the check after that ends with the link disconnected, its
trace holding one Disconnected call per subscriber. The same holds for the
first frame after init, accepted at a tick `tf > 0` before any check has run
(`last_lora_data_checked_ticks = 0`, as a successful init leaves it). -/
theorem accepted_frame_connects_then_disconnects (s0 : State) (t1 tf t2 t3 : Nat)
    (hn : s0.num_callbacks ≤ MAX_REGISTRATED_CALLBACKS)
    (h1 : t1 < tf) (h2 : tf ≤ t2) (h3 : t2 < TICK_MODULUS) :
    (∃ s1 c1, lora_state_checker_iteration s0 t1 = Outcome.returned s1 c1 ∧
      s1.last_lora_data_checked_ticks = t1 ∧
      registered s1 = registered s0 ∧
      ∃ s3, lora_state_checker_iteration (on_receive_isr s1 12 tf) t2 =
          Outcome.returned s3
            (if s1.status = LORA_CONTROLLER_DISCONNECTED
             then calls_with (registered s0) LORA_CONTROLLER_CONNECTED else []) ∧
        s3.status = LORA_CONTROLLER_CONNECTED ∧
        ∃ s4, lora_state_checker_iteration s3 t3 =
            Outcome.returned s4 (calls_with (registered s0) LORA_CONTROLLER_DISCONNECTED) ∧
          s4.status = LORA_CONTROLLER_DISCONNECTED) ∧
    (s0.status = LORA_CONTROLLER_DISCONNECTED → s0.last_lora_data_checked_ticks = 0 →
      ∃ s3, lora_state_checker_iteration (on_receive_isr s0 12 tf) t2 =
          Outcome.returned s3 (calls_with (registered s0) LORA_CONTROLLER_CONNECTED) ∧
        s3.status = LORA_CONTROLLER_CONNECTED ∧
        ∃ s4, lora_state_checker_iteration s3 t3 =
            Outcome.returned s4 (calls_with (registered s0) LORA_CONTROLLER_DISCONNECTED) ∧
          s4.status = LORA_CONTROLLER_DISCONNECTED) ∧
    (∃ sI, lora_controller_init State.initial true true true = Outcome.returned sI () ∧
      sI.status = LORA_CONTROLLER_DISCONNECTED ∧ sI.last_lora_data_checked_ticks = 0 ∧
      sI.num_callbacks = 0) := by
  have ht1 : xTaskGetTickCount t1 = t1 :=
    Nat.mod_eq_of_lt (Nat.lt_of_lt_of_le h1 (Nat.le_of_lt (Nat.lt_of_le_of_lt h2 h3)))
  refine ⟨?_, ?_, ⟨_, rfl, rfl, rfl, rfl⟩⟩
  · obtain ⟨s1, c1, hs1, hck, _, hnum, hcbs⟩ := checker_returns s0 t1 hn
    have hreg : registered s1 = registered s0 := registered_congr s1 s0 hnum hcbs
    refine ⟨s1, c1, hs1, hck.trans ht1, hreg, ?_⟩
    have hn1 : s1.num_callbacks ≤ MAX_REGISTRATED_CALLBACKS := by rw [hnum]; exact hn
    have hlt : s1.last_lora_data_checked_ticks < tf := by rw [hck, ht1]; exact h1
    have key := frame_then_two_checks s1 tf t2 t3 hn1 hlt h2 h3
    rw [hreg] at key
    exact key
  · intro hd h0
    have hlt : s0.last_lora_data_checked_ticks < tf := by rw [h0]; omega
    have key := frame_then_two_checks s0 tf t2 t3 hn hlt h2 h3
    rw [if_pos hd] at key
    exact key

/-- Witness for C8 (Scenario B): after init and the registration of 7, a
frame accepted at tick 150 makes the check at tick 2100 call 7 with Connected,
and the check at tick 4100 call 7 with Disconnected. -/
theorem accepted_frame_connects_then_disconnects_witness :
    (100 < 150 ∧ 150 ≤ 2100 ∧ 2100 < TICK_MODULUS) ∧
    ∃ s3,
      lora_state_checker_iteration
          (on_receive_isr
            { State.initial with
              is_initialized := true
              status_callbacks := Function.update (fun _ => 0) ⟨0, by decide⟩ 7
              num_callbacks := 1 } 12 150) 2100 =
        Outcome.returned s3 [(7, LORA_CONTROLLER_CONNECTED)] ∧
      s3.status = LORA_CONTROLLER_CONNECTED ∧
      ∃ s4, lora_state_checker_iteration s3 4100 =
          Outcome.returned s4 [(7, LORA_CONTROLLER_DISCONNECTED)] ∧
        s4.status = LORA_CONTROLLER_DISCONNECTED :=
  ⟨by decide,
   (accepted_frame_connects_then_disconnects
      { State.initial with
        is_initialized := true
        status_callbacks := Function.update (fun _ => 0) ⟨0, by decide⟩ 7
        num_callbacks := 1 } 100 150 2100 4100
      (by decide) (by decide) (by decide) (by decide)).2.1 rfl rfl⟩

/-- C8 as stated fails for a frame accepted in the very tick the check
recorded. After init and the registration of 7 the check at tick 100 records
100; a 12-byte frame is then accepted at tick 100; the next check, at tick
2100, compares 100 > 100, leaves the link disconnected and calls nobody. -/
theorem frame_in_recorded_tick_counterexample :
    lora_state_checker_iteration
        { State.initial with
          is_initialized := true
          status_callbacks := Function.update (fun _ => 0) ⟨0, by decide⟩ 7
          num_callbacks := 1 } 100 =
      Outcome.returned
        { State.initial with
          is_initialized := true
          status_callbacks := Function.update (fun _ => 0) ⟨0, by decide⟩ 7
          num_callbacks := 1
          last_lora_data_checked_ticks := 100 } [] ∧
    lora_state_checker_iteration
        (on_receive_isr
        { State.initial with
          is_initialized := true
          status_callbacks := Function.update (fun _ => 0) ⟨0, by decide⟩ 7
          num_callbacks := 1
          last_lora_data_checked_ticks := 100 } 12 100) 2100 =
      Outcome.returned
        { State.initial with
          is_initialized := true
          status_callbacks := Function.update (fun _ => 0) ⟨0, by decide⟩ 7
          num_callbacks := 1
          status := LORA_CONTROLLER_DISCONNECTED
          last_lora_data_ticks := 100
          last_lora_data_checked_ticks := 2100
          notify_pending := true
          notify_value := LORA_DATA_NOTIFICATION } [] ∧
    ¬ ∃ s3 calls,
      lora_state_checker_iteration
        (on_receive_isr
        { State.initial with
          is_initialized := true
          status_callbacks := Function.update (fun _ => 0) ⟨0, by decide⟩ 7
          num_callbacks := 1
          last_lora_data_checked_ticks := 100 } 12 100) 2100 =
      Outcome.returned s3 calls ∧ s3.status = LORA_CONTROLLER_CONNECTED := by
  refine ⟨rfl, rfl, ?_⟩
  rintro ⟨s3, calls, h, hs⟩
  have e : lora_state_checker_iteration
        (on_receive_isr
        { State.initial with
          is_initialized := true
          status_callbacks := Function.update (fun _ => 0) ⟨0, by decide⟩ 7
          num_callbacks := 1
          last_lora_data_checked_ticks := 100 } 12 100) 2100 =
      Outcome.returned
        { State.initial with
          is_initialized := true
          status_callbacks := Function.update (fun _ => 0) ⟨0, by decide⟩ 7
          num_callbacks := 1
          status := LORA_CONTROLLER_DISCONNECTED
          last_lora_data_ticks := 100
          last_lora_data_checked_ticks := 2100
          notify_pending := true
          notify_value := LORA_DATA_NOTIFICATION } [] := rfl
  have h2 := e.symm.trans h
  injection h2 with h3 _
  rw [← h3] at hs
  exact LoraControllerStatus.noConfusion hs

/-! ## The interrupt handler accepts a frame -/

/-- One pass of a notified worker, spelled out: it consumes the notification,
drains, and either returns or publishes according to the number of bytes read. -/
theorem lora_receive_task_iteration_notified (s : State) (fifo : List Nat)
    (hp : s.notify_pending = true) (hv : s.notify_value = LORA_DATA_NOTIFICATION) :
    lora_receive_task_iteration s fifo =
      if (drain_loop fifo 0 s.receive_buf).2.1 ≠ LORA_PACKET_LENGTH then
        WorkerStep.halted
          { s with
            notify_pending := false
            receive_buf := (drain_loop fifo 0 s.receive_buf).2.2 }
          (drain_loop fifo 0 s.receive_buf).1
      else
        WorkerStep.looped
          { s with
            notify_pending := false
            receive_buf := (drain_loop fifo 0 s.receive_buf).2.2
            channel_values := memcpy_channel_values (drain_loop fifo 0 s.receive_buf).2.2 }
          (drain_loop fifo 0 s.receive_buf).1 := by
  unfold lora_receive_task_iteration
  rw [if_neg (not_not.mpr hp), if_neg (not_not.mpr hv)]

/-- The worker, scheduled with a notification of value `LORA_DATA_NOTIFICATION`
pending, consumes it: it does not block, and whichever way the pass ends no
notification is pending afterwards. -/
theorem worker_consumes_notification (s : State) (fifo : List Nat)
    (hp : s.notify_pending = true) (hv : s.notify_value = LORA_DATA_NOTIFICATION) :
    ∃ s2 rest, (lora_receive_task_iteration s fifo = WorkerStep.looped s2 rest ∨
        lora_receive_task_iteration s fifo = WorkerStep.halted s2 rest) ∧
      s2.notify_pending = false := by
  rw [lora_receive_task_iteration_notified s fifo hp hv]
  by_cases h : (drain_loop fifo 0 s.receive_buf).2.1 ≠ LORA_PACKET_LENGTH
  · rw [if_pos h]
    exact ⟨_, _, Or.inr rfl, rfl⟩
  · rw [if_neg h]
    exact ⟨_, _, Or.inl rfl, rfl⟩

/-- C18: for byte count 12, `on_receive_isr` stores the tick it reads in
`last_lora_data_ticks` and leaves the single notification slot of the receive
worker pending with value `LORA_DATA_NOTIFICATION`, whatever the slot held:
two accepted frames in a row leave the slot as one does, and one pass of the
worker consumes it. For every byte count the channel value store, the link
state, the subscriber list and count, and `last_lora_data_checked_ticks` are
left as they were. -/
theorem on_receive_isr_effects (s : State) (n : Int) (t1 t2 : Nat) (fifo : List Nat) :
    (on_receive_isr s 12 t1).last_lora_data_ticks = xTaskGetTickCountFromISR t1 ∧
    (on_receive_isr s 12 t1).notify_pending = true ∧
    (on_receive_isr s 12 t1).notify_value = LORA_DATA_NOTIFICATION ∧
    (on_receive_isr (on_receive_isr s 12 t1) 12 t2).notify_pending =
      (on_receive_isr s 12 t2).notify_pending ∧
    (on_receive_isr (on_receive_isr s 12 t1) 12 t2).notify_value =
      (on_receive_isr s 12 t2).notify_value ∧
    on_receive_isr (on_receive_isr s 12 t1) 12 t2 = on_receive_isr s 12 t2 ∧
    (∃ s2 rest,
      (lora_receive_task_iteration (on_receive_isr (on_receive_isr s 12 t1) 12 t2) fifo =
          WorkerStep.looped s2 rest ∨
        lora_receive_task_iteration (on_receive_isr (on_receive_isr s 12 t1) 12 t2) fifo =
          WorkerStep.halted s2 rest) ∧
      s2.notify_pending = false) ∧
    (on_receive_isr s n t1).channel_values = s.channel_values ∧
    (on_receive_isr s n t1).status = s.status ∧
    (on_receive_isr s n t1).status_callbacks = s.status_callbacks ∧
    (on_receive_isr s n t1).num_callbacks = s.num_callbacks ∧
    (on_receive_isr s n t1).last_lora_data_checked_ticks = s.last_lora_data_checked_ticks := by
  have hframe : ∀ m : Int, ∀ t : Nat,
      (on_receive_isr s m t).channel_values = s.channel_values ∧
      (on_receive_isr s m t).status = s.status ∧
      (on_receive_isr s m t).status_callbacks = s.status_callbacks ∧
      (on_receive_isr s m t).num_callbacks = s.num_callbacks ∧
      (on_receive_isr s m t).last_lora_data_checked_ticks = s.last_lora_data_checked_ticks := by
    intro m t
    unfold on_receive_isr
    split_ifs <;> exact ⟨rfl, rfl, rfl, rfl, rfl⟩
  have h2 : on_receive_isr (on_receive_isr s 12 t1) 12 t2 = on_receive_isr s 12 t2 := by
    rw [on_receive_isr_accept, on_receive_isr_accept, on_receive_isr_accept]
  refine ⟨?_, ?_, ?_, ?_, ?_, h2, ?_, hframe n t1⟩
  · rw [on_receive_isr_accept]
  · rw [on_receive_isr_accept]
  · rw [on_receive_isr_accept]
  · rw [h2]
  · rw [h2]
  · apply worker_consumes_notification
    · rw [h2, on_receive_isr_accept]
    · rw [h2, on_receive_isr_accept]

/-! ## Initialisation -/

/-- C19: called on the statics as the program starts, with the radio bring-up
and both task creations succeeding, `lora_controller_init` returns with the
module initialised, the link `LORA_CONTROLLER_DISCONNECTED`, no subscriber
registered (`num_callbacks = 0`) and every channel value 0. -/
theorem init_establishes_start_state :
    ∃ s, lora_controller_init State.initial true true true = Outcome.returned s () ∧
      s.is_initialized = true ∧
      s.status = LORA_CONTROLLER_DISCONNECTED ∧
      s.num_callbacks = 0 ∧
      registered s = [] ∧
      ∀ i : Fin RC_NUM_CHANNELS, s.channel_values i = 0 :=
  ⟨{ State.initial with is_initialized := true }, rfl, rfl, rfl, rfl,
    registered_zero _ rfl, fun _ => rfl⟩

/-- An init that returns leaves the module initialised exactly when the radio came up. -/
theorem init_returned (s s1 : State) (b c d : Bool)
    (h : lora_controller_init s b c d = Outcome.returned s1 ()) :
    s.is_initialized = false ∧ s1.is_initialized = b := by
  unfold lora_controller_init at h
  cases hi : s.is_initialized
  · refine ⟨rfl, ?_⟩
    rw [hi] at h
    cases b <;> cases c <;> cases d <;> simp at h <;> rw [← h]
  · rw [hi] at h
    simp at h

/-- C14 (amended): in every state left by an earlier `lora_controller_init`
that returned with the radio brought up (so with `is_initialized` true), a
further call fails the assertion at its entry and leaves the module state,
channel values, subscriber count and initialised flag included, as it was. -/
theorem second_init_refused (s s1 : State) (c d b2 c2 d2 : Bool)
    (h : lora_controller_init s true c d = Outcome.returned s1 ()) :
    lora_controller_init s1 b2 c2 d2 = Outcome.assert_failed s1 := by
  have hi := (init_returned s s1 true c d h).2
  unfold lora_controller_init
  rw [if_pos hi]

/-- Witness for C14: a second init after the successful first one is refused. -/
theorem second_init_refused_witness :
    lora_controller_init State.initial true true true =
      Outcome.returned { State.initial with is_initialized := true } () ∧
    lora_controller_init { State.initial with is_initialized := true } true true true =
      Outcome.assert_failed { State.initial with is_initialized := true } :=
  ⟨rfl, second_init_refused State.initial { State.initial with is_initialized := true }
    true true true true true rfl⟩

/-- C14 as stated fails after an init whose radio bring-up failed: that call
returns with `is_initialized` still false, so the second call passes
`assert(!is_initialized)`, runs again and, the radio now coming up, initialises
the module. -/
theorem second_init_after_failed_bring_up_counterexample :
    lora_controller_init State.initial false true true =
      Outcome.returned State.initial () ∧
    lora_controller_init State.initial true true true =
      Outcome.returned { State.initial with is_initialized := true } () ∧
    ¬ ∃ s, lora_controller_init State.initial true true true = Outcome.assert_failed s := by
  refine ⟨rfl, rfl, ?_⟩
  rintro ⟨s, h⟩
  have e : lora_controller_init State.initial true true true =
      Outcome.returned { State.initial with is_initialized := true } () := rfl
  exact Outcome.noConfusion (e.symm.trans h)

/-! ## The worker at a wake-up -/

/-- The drain loop from index 0: how many bytes it reads, what it leaves in
the driver and what it leaves in `receive_buf`. -/
theorem drain_loop_from_zero (fifo : List Nat) (buf : Fin LORA_PACKET_LENGTH → Nat) :
    (drain_loop fifo 0 buf).1 = fifo.drop LORA_PACKET_LENGTH ∧
    (drain_loop fifo 0 buf).2.1 = min fifo.length LORA_PACKET_LENGTH ∧
    (∀ j : Fin LORA_PACKET_LENGTH, j.val < min fifo.length LORA_PACKET_LENGTH →
      (drain_loop fifo 0 buf).2.2 j = fifo.getD j.val 0 % 256) ∧
    (∀ j : Fin LORA_PACKET_LENGTH, min fifo.length LORA_PACKET_LENGTH ≤ j.val →
      (drain_loop fifo 0 buf).2.2 j = buf j) := by
  rw [drain_loop_spec fifo 0 buf (Nat.zero_le _)]
  refine ⟨rfl, ?_, ?_, ?_⟩
  · show 0 + min fifo.length (LORA_PACKET_LENGTH - 0) = min fifo.length LORA_PACKET_LENGTH
    rw [Nat.zero_add, Nat.sub_zero]
  · intro j hj
    have hc : 0 ≤ j.val ∧ j.val < 0 + fifo.length := by
      constructor
      · exact Nat.zero_le _
      · rw [Nat.zero_add]; exact Nat.lt_of_lt_of_le hj (Nat.min_le_left _ _)
    show (if 0 ≤ j.val ∧ j.val < 0 + fifo.length then fifo.getD (j.val - 0) 0 % 256 else buf j) = _
    rw [if_pos hc, Nat.sub_zero]
  · intro j hj
    have hl : j.val < LORA_PACKET_LENGTH := j.isLt
    have hc : ¬ (0 ≤ j.val ∧ j.val < 0 + fifo.length) := by
      rintro ⟨_, h2⟩
      rw [Nat.zero_add] at h2
      have : j.val < min fifo.length LORA_PACKET_LENGTH := Nat.lt_min.mpr ⟨h2, hl⟩
      exact absurd hj (Nat.not_le.mpr this)
    show (if 0 ≤ j.val ∧ j.val < 0 + fifo.length then fifo.getD (j.val - 0) 0 % 256 else buf j) = _
    rw [if_neg hc]

/-- A notified worker that finds fewer than 12 bytes returns, the store untouched. -/
theorem lora_receive_task_iteration_underrun (s : State) (fifo : List Nat)
    (hp : s.notify_pending = true) (hv : s.notify_value = LORA_DATA_NOTIFICATION)
    (hlen : fifo.length < LORA_PACKET_LENGTH) :
    lora_receive_task_iteration s fifo =
      WorkerStep.halted
        { s with
          notify_pending := false
          receive_buf := (drain_loop fifo 0 s.receive_buf).2.2 }
        (drain_loop fifo 0 s.receive_buf).1 := by
  rw [lora_receive_task_iteration_notified s fifo hp hv, if_pos]
  rw [(drain_loop_from_zero fifo s.receive_buf).2.1]
  have : min fifo.length LORA_PACKET_LENGTH = fifo.length := Nat.min_eq_left (Nat.le_of_lt hlen)
  rw [this]
  exact Nat.ne_of_lt hlen

/-- A notified worker that finds 12 bytes or more publishes and loops. -/
theorem lora_receive_task_iteration_enough (s : State) (fifo : List Nat)
    (hp : s.notify_pending = true) (hv : s.notify_value = LORA_DATA_NOTIFICATION)
    (hlen : LORA_PACKET_LENGTH ≤ fifo.length) :
    lora_receive_task_iteration s fifo =
      WorkerStep.looped
        { s with
          notify_pending := false
          receive_buf := (drain_loop fifo 0 s.receive_buf).2.2
          channel_values := memcpy_channel_values (drain_loop fifo 0 s.receive_buf).2.2 }
        (drain_loop fifo 0 s.receive_buf).1 := by
  rw [lora_receive_task_iteration_notified s fifo hp hv, if_neg]
  rw [(drain_loop_from_zero fifo s.receive_buf).2.1, Nat.min_eq_right hlen]
  exact fun h => h rfl

/-- C20: whatever number `a` of bytes the driver holds at a wake-up, the drain
loop (a total function) ends having read exactly `min a 12` bytes, one `read`
per byte taken from the head of what the driver holds, so never from an empty
driver; it has written `receive_buf` at the indices below `min a 12` only (the
buffer has no index 12), every other entry being as before; and the notified
worker publishes to the store if and only if `a ≥ 12`, returning otherwise
with the store untouched. -/
theorem drain_loop_reads_min_and_publishes_iff (s : State) (fifo : List Nat)
    (buf : Fin LORA_PACKET_LENGTH → Nat) :
    (drain_loop fifo 0 buf).2.1 = min fifo.length LORA_PACKET_LENGTH ∧
    (drain_loop fifo 0 buf).1 = fifo.drop (min fifo.length LORA_PACKET_LENGTH) ∧
    (drain_loop fifo 0 buf).1.length + (drain_loop fifo 0 buf).2.1 = fifo.length ∧
    (∀ j : Fin LORA_PACKET_LENGTH, j.val < min fifo.length LORA_PACKET_LENGTH →
      (drain_loop fifo 0 buf).2.2 j = fifo.getD j.val 0 % 256) ∧
    (∀ j : Fin LORA_PACKET_LENGTH, min fifo.length LORA_PACKET_LENGTH ≤ j.val →
      (drain_loop fifo 0 buf).2.2 j = buf j) ∧
    (s.notify_pending = true → s.notify_value = LORA_DATA_NOTIFICATION →
      ((∃ s2 rest, lora_receive_task_iteration s fifo = WorkerStep.looped s2 rest) ↔
        LORA_PACKET_LENGTH ≤ fifo.length) ∧
      (LORA_PACKET_LENGTH ≤ fifo.length →
        ∃ s2 rest, lora_receive_task_iteration s fifo = WorkerStep.looped s2 rest ∧
          s2.channel_values = memcpy_channel_values (drain_loop fifo 0 s.receive_buf).2.2) ∧
      (fifo.length < LORA_PACKET_LENGTH →
        ∃ s2 rest, lora_receive_task_iteration s fifo = WorkerStep.halted s2 rest ∧
          s2.channel_values = s.channel_values)) := by
  obtain ⟨h1, h2, h3, h4⟩ := drain_loop_from_zero fifo buf
  have hdrop : fifo.drop LORA_PACKET_LENGTH = fifo.drop (min fifo.length LORA_PACKET_LENGTH) := by
    by_cases hl : fifo.length ≤ LORA_PACKET_LENGTH
    · rw [Nat.min_eq_left hl, List.drop_of_length_le hl, List.drop_of_length_le (Nat.le_refl _)]
    · rw [Nat.min_eq_right (Nat.le_of_lt (Nat.lt_of_not_le hl))]
  refine ⟨h2, h1.trans hdrop, ?_, h3, h4, ?_⟩
  · rw [h1, h2, List.length_drop]
    show fifo.length - 12 + min fifo.length 12 = fifo.length
    omega
  · intro hp hv
    refine ⟨⟨?_, fun h => ⟨_, _, lora_receive_task_iteration_enough s fifo hp hv h⟩⟩,
      fun h => ⟨_, _, lora_receive_task_iteration_enough s fifo hp hv h, rfl⟩,
      fun h => ⟨_, _, lora_receive_task_iteration_underrun s fifo hp hv h, rfl⟩⟩
    rintro ⟨s2, rest, h⟩
    by_contra hlt
    rw [lora_receive_task_iteration_underrun s fifo hp hv (Nat.lt_of_not_le hlt)] at h
    exact WorkerStep.noConfusion h

/-- Witness for C20: a notified worker finding 3 bytes reads 3, leaves entries
3 to 11 of `receive_buf` alone and returns; finding 13 bytes it reads 12,
leaves one in the driver and publishes. -/
theorem drain_loop_reads_min_and_publishes_iff_witness :
    (drain_loop [1, 2, 3] 0 (fun _ => 0)).2.1 = 3 ∧
    (drain_loop [1, 0, 2, 0, 3, 0, 4, 0, 5, 0, 6, 0, 99] 0 (fun _ => 0)).2.1 = 12 ∧
    (drain_loop [1, 0, 2, 0, 3, 0, 4, 0, 5, 0, 6, 0, 99] 0 (fun _ => 0)).1 = [99] ∧
    (∃ s2 rest,
      lora_receive_task_iteration
        { State.initial with
          is_initialized := true
          notify_pending := true
          notify_value := LORA_DATA_NOTIFICATION } [1, 2, 3] = WorkerStep.halted s2 rest ∧
      s2.channel_values = State.initial.channel_values) :=
  ⟨(drain_loop_reads_min_and_publishes_iff State.initial [1, 2, 3] (fun _ => 0)).1,
   (drain_loop_reads_min_and_publishes_iff State.initial
      [1, 0, 2, 0, 3, 0, 4, 0, 5, 0, 6, 0, 99] (fun _ => 0)).1,
   (drain_loop_reads_min_and_publishes_iff State.initial
      [1, 0, 2, 0, 3, 0, 4, 0, 5, 0, 6, 0, 99] (fun _ => 0)).2.1,
   ((drain_loop_reads_min_and_publishes_iff
      { State.initial with
        is_initialized := true
        notify_pending := true
        notify_value := LORA_DATA_NOTIFICATION } [1, 2, 3] (fun _ => 0)).2.2.2.2.2 rfl rfl).2.2
      (by decide)⟩

/-! ## What each entry point leaves alone -/

/-- Registration, however it ends, touches only the registry. -/
theorem register_frame (s : State) (cb : LoraControllerStatusCb) :
    (lora_controller_register_connection_callback s cb).state.channel_values =
      s.channel_values ∧
    (lora_controller_register_connection_callback s cb).state.status = s.status ∧
    (lora_controller_register_connection_callback s cb).state.last_lora_data_ticks =
      s.last_lora_data_ticks ∧
    (lora_controller_register_connection_callback s cb).state.notify_pending =
      s.notify_pending := by
  unfold lora_controller_register_connection_callback
  split_ifs <;> exact ⟨rfl, rfl, rfl, rfl⟩

/-- A pass of the liveness check, however it ends, leaves the store, the
receive timestamp, the notification slot and the subscriber count alone. -/
theorem checker_frame (s : State) (elapsed : Nat) :
    (lora_state_checker_iteration s elapsed).state.channel_values = s.channel_values ∧
    (lora_state_checker_iteration s elapsed).state.last_lora_data_ticks =
      s.last_lora_data_ticks ∧
    (lora_state_checker_iteration s elapsed).state.notify_pending = s.notify_pending ∧
    (lora_state_checker_iteration s elapsed).state.num_callbacks = s.num_callbacks := by
  unfold lora_state_checker_iteration
  split_ifs
  · simp only []
    split <;> exact ⟨rfl, rfl, rfl, rfl⟩
  · exact ⟨rfl, rfl, rfl, rfl⟩
  · simp only []
    split <;> exact ⟨rfl, rfl, rfl, rfl⟩
  · exact ⟨rfl, rfl, rfl, rfl⟩

/-- The interrupt handler never writes the channel value store. -/
theorem on_receive_isr_channel_values (s : State) (n : Int) (elapsed : Nat) :
    (on_receive_isr s n elapsed).channel_values = s.channel_values := by
  unfold on_receive_isr
  split_ifs <;> rfl

/-- Once the worker has returned no event writes the channel value store. -/
theorem step_worker_gone (m : Machine) (e : Event) (hw : m.worker_running = false) :
    (m.step e).worker_running = false ∧
    (m.step e).mod.channel_values = m.mod.channel_values := by
  cases e with
  | register cb =>
    unfold Machine.step
    by_cases hs : m.stopped = true
    · simp [hs, hw]
    · have hf := (register_frame m.mod cb).1
      simp only [hs]
      cases hr : lora_controller_register_connection_callback m.mod cb <;>
        rw [hr] at hf <;> exact ⟨hw, hf⟩
  | isr n t =>
    unfold Machine.step
    by_cases hs : m.stopped = true
    · simp [hs, hw]
    · simp only [hs]
      exact ⟨hw, on_receive_isr_channel_values m.mod n t⟩
  | wake fifo =>
    unfold Machine.step
    by_cases hs : m.stopped = true
    · simp [hs, hw]
    · simp [hs, hw]
  | check t =>
    unfold Machine.step
    by_cases hs : m.stopped = true
    · simp [hs, hw]
    · have hf := (checker_frame m.mod t).1
      simp only [hs]
      cases hr : lora_state_checker_iteration m.mod t <;>
        rw [hr] at hf <;> exact ⟨hw, hf⟩

/-- Once the worker has returned no run writes the channel value store. -/
theorem run_worker_gone (evs : List Event) :
    ∀ m : Machine, m.worker_running = false →
      (m.run evs).worker_running = false ∧
      (m.run evs).mod.channel_values = m.mod.channel_values := by
  induction evs with
  | nil => intro m hw; exact ⟨hw, rfl⟩
  | cons e evs ih =>
    intro m hw
    obtain ⟨h1, h2⟩ := step_worker_gone m e hw
    obtain ⟨h3, h4⟩ := ih (m.step e) h1
    exact ⟨h3, h4.trans h2⟩

/-! ## Underrun and oversize at drain time -/

/-- C13: at a wake-up of the notified worker at which the driver holds fewer
than 12 bytes, the pass of `lora_receive_task` ends by returning from the task
function with the channel value store as it was. The task is gone from then
on: whatever events follow (accepted frames and further wake-ups of the driver
included), the worker never runs again and the store never changes. -/
theorem underrun_halts_worker_for_good (m : Machine) (fifo : List Nat) (evs : List Event)
    (hs : m.stopped = false) (hw : m.worker_running = true)
    (hp : m.mod.notify_pending = true) (hv : m.mod.notify_value = LORA_DATA_NOTIFICATION)
    (hlen : fifo.length < LORA_PACKET_LENGTH) :
    (∃ s2 rest, lora_receive_task_iteration m.mod fifo = WorkerStep.halted s2 rest ∧
      s2.channel_values = m.mod.channel_values) ∧
    (m.step (Event.wake fifo)).worker_running = false ∧
    (m.step (Event.wake fifo)).mod.channel_values = m.mod.channel_values ∧
    ((m.step (Event.wake fifo)).run evs).worker_running = false ∧
    ((m.step (Event.wake fifo)).run evs).mod.channel_values = m.mod.channel_values := by
  have hit := lora_receive_task_iteration_underrun m.mod fifo hp hv hlen
  have hstep : (m.step (Event.wake fifo)).worker_running = false ∧
      (m.step (Event.wake fifo)).mod.channel_values = m.mod.channel_values := by
    unfold Machine.step
    simp only [hs, hw, hit]
    exact ⟨rfl, rfl⟩
  obtain ⟨h1, h2⟩ := run_worker_gone evs (m.step (Event.wake fifo)) hstep.1
  exact ⟨⟨_, _, hit, rfl⟩, hstep.1, hstep.2, h1, h2.trans hstep.2⟩

/-- Witness for C13: after init a frame is accepted, the worker wakes to find
3 bytes and returns; a later accepted frame with all 12 bytes in the driver is
not published: the store still holds zeros. -/
theorem underrun_halts_worker_for_good_witness :
    (((Machine.start { State.initial with is_initialized := true }).step
        (Event.isr 12 5)).step (Event.wake [1, 2, 3])).worker_running = false ∧
    ((((Machine.start { State.initial with is_initialized := true }).step
        (Event.isr 12 5)).step (Event.wake [1, 2, 3])).run
          [Event.isr 12 50,
           Event.wake [10, 0, 20, 0, 30, 0, 0, 0, 0, 0, 0, 0]]).mod.channel_values =
      ((Machine.start { State.initial with is_initialized := true }).step
        (Event.isr 12 5)).mod.channel_values :=
  ⟨(underrun_halts_worker_for_good
      ((Machine.start { State.initial with is_initialized := true }).step (Event.isr 12 5))
      [1, 2, 3] [] rfl rfl rfl rfl (by decide)).2.1,
   (underrun_halts_worker_for_good
      ((Machine.start { State.initial with is_initialized := true }).step (Event.isr 12 5))
      [1, 2, 3]
      [Event.isr 12 50, Event.wake [10, 0, 20, 0, 30, 0, 0, 0, 0, 0, 0, 0]]
      rfl rfl rfl rfl (by decide)).2.2.2.2⟩

/-- C12: the code at a wake-up with more than 12 bytes in the driver. After
init a frame is accepted and the worker wakes with the driver holding 13
bytes. The loop stops at `i = 12`, so `i != LORA_PACKET_LENGTH` is false, the
first 12 bytes are published and the store, all zeros before, holds 1 to 6;
the thirteenth byte stays in the driver. -/
theorem oversize_drain_is_published :
    ([1, 0, 2, 0, 3, 0, 4, 0, 5, 0, 6, 0, 99] : List Nat).length = 13 ∧
    (∃ s2,
      lora_receive_task_iteration
          (on_receive_isr { State.initial with is_initialized := true } 12 5)
          [1, 0, 2, 0, 3, 0, 4, 0, 5, 0, 6, 0, 99] = WorkerStep.looped s2 [99] ∧
      s2.channel_values ⟨0, by decide⟩ = 1 ∧ s2.channel_values ⟨1, by decide⟩ = 2 ∧
      s2.channel_values ⟨2, by decide⟩ = 3 ∧ s2.channel_values ⟨3, by decide⟩ = 4 ∧
      s2.channel_values ⟨4, by decide⟩ = 5 ∧ s2.channel_values ⟨5, by decide⟩ = 6) ∧
    (on_receive_isr { State.initial with is_initialized := true } 12 5).channel_values
        ⟨0, by decide⟩ = 0 ∧
    (((Machine.start { State.initial with is_initialized := true }).run
        [Event.isr 12 5, Event.wake [1, 0, 2, 0, 3, 0, 4, 0, 5, 0, 6, 0, 99]]).mod.channel_values
          ⟨0, by decide⟩ = 1) :=
  ⟨rfl, ⟨_, rfl, rfl, rfl, rfl, rfl, rfl, rfl⟩, rfl, rfl⟩

/-! ## The registry bound along a run -/

/-- C11: the code on the run init, register 11, register 22, register 33. The
third registration finds `num_callbacks = 2`, passes
`assert(num_callbacks <= 2)`, stores past the array and increments: the
program is still running and `num_callbacks` is 3, above the capacity. When a
frame is then accepted and the liveness monitor takes the link up, its loop
uses the index 2, outside the 2-element array. -/
theorem registry_count_exceeds_capacity :
    lora_controller_init State.initial true true true =
      Outcome.returned { State.initial with is_initialized := true } () ∧
    ((Machine.start { State.initial with is_initialized := true }).run
      [Event.register 11, Event.register 22]).mod.num_callbacks = 2 ∧
    ((Machine.start { State.initial with is_initialized := true }).run
      [Event.register 11, Event.register 22, Event.register 33]).stopped = false ∧
    ((Machine.start { State.initial with is_initialized := true }).run
      [Event.register 11, Event.register 22, Event.register 33]).mod.num_callbacks = 3 ∧
    ¬ (((Machine.start { State.initial with is_initialized := true }).run
      [Event.register 11, Event.register 22, Event.register 33]).mod.num_callbacks ≤
        MAX_REGISTRATED_CALLBACKS) ∧
    (∃ s,
      lora_state_checker_iteration
        ((Machine.start { State.initial with is_initialized := true }).run
          [Event.register 11, Event.register 22, Event.register 33,
           Event.isr 12 5]).mod 2000 = Outcome.out_of_bounds s 2) ∧
    ¬ (2 < MAX_REGISTRATED_CALLBACKS) :=
  ⟨rfl, rfl, rfl, rfl, by decide, ⟨_, rfl⟩, by decide⟩

/-! ## The liveness check past the registry bound -/

/-- The state of affairs while no frame has ever been accepted. -/
theorem step_without_frame (m : Machine) (e : Event) (he : e.accepts_no_frame = true)
    (hst : m.mod.status = LORA_CONTROLLER_DISCONNECTED)
    (hd : m.mod.last_lora_data_ticks = 0) (hp : m.mod.notify_pending = false)
    (hc : m.calls = []) :
    (m.step e).mod.status = LORA_CONTROLLER_DISCONNECTED ∧
    (m.step e).mod.last_lora_data_ticks = 0 ∧
    (m.step e).mod.notify_pending = false ∧
    (m.step e).calls = [] := by
  cases e with
  | register cb =>
    unfold Machine.step
    by_cases hs : m.stopped = true
    · simp [hs, hst, hd, hp, hc]
    · obtain ⟨_, h2, h3, h4⟩ := register_frame m.mod cb
      simp only [hs]
      cases hr : lora_controller_register_connection_callback m.mod cb <;>
        rw [hr] at h2 h3 h4 <;>
        exact ⟨h2.trans hst, h3.trans hd, h4.trans hp, hc⟩
  | isr n t =>
    have hn : n ≠ 12 := by simpa [Event.accepts_no_frame] using he
    unfold Machine.step
    by_cases hs : m.stopped = true
    · simp [hs, hst, hd, hp, hc]
    · simp only [hs]
      rw [(on_receive_isr_wrong_length m.mod n t hn).1]
      exact ⟨hst, hd, hp, hc⟩
  | wake fifo =>
    unfold Machine.step
    by_cases hs : m.stopped = true
    · simp [hs, hst, hd, hp, hc]
    · by_cases hw : m.worker_running = true
      · have hb : lora_receive_task_iteration m.mod fifo =
            WorkerStep.blocked
              { m.mod with notify_value := m.mod.notify_value - m.mod.notify_value % 2 } := by
          unfold lora_receive_task_iteration
          rw [if_pos (by simp [hp])]
        simp only [hs, hw, hb]
        exact ⟨hst, hd, hp, hc⟩
      · simp [hs, hw, hst, hd, hp, hc]
  | check t =>
    unfold Machine.step
    by_cases hs : m.stopped = true
    · simp [hs, hst, hd, hp, hc]
    · have hle : m.mod.last_lora_data_ticks ≤ m.mod.last_lora_data_checked_ticks := by
        rw [hd]; exact Nat.zero_le _
      simp only [hs, checker_silent_disconnected m.mod t hst hle]
      exact ⟨hst, hd, hp, by simp [hc]⟩

/-- A run without an accepted frame keeps the link down and calls nobody. -/
theorem run_without_frame (evs : List Event) :
    ∀ m : Machine, (∀ e ∈ evs, e.accepts_no_frame = true) →
      m.mod.status = LORA_CONTROLLER_DISCONNECTED → m.mod.last_lora_data_ticks = 0 →
      m.mod.notify_pending = false → m.calls = [] →
      (m.run evs).mod.status = LORA_CONTROLLER_DISCONNECTED ∧ (m.run evs).calls = [] := by
  induction evs with
  | nil => intro m _ hst _ _ hc; exact ⟨hst, hc⟩
  | cons e evs ih =>
    intro m hall hst hd hp hc
    obtain ⟨h1, h2, h3, h4⟩ :=
      step_without_frame m e (hall e (List.mem_cons_self _ _)) hst hd hp hc
    exact ih (m.step e) (fun x hx => hall x (List.mem_cons_of_mem _ hx)) h1 h2 h3 h4

/-- C15: if no frame is ever accepted the link never comes up. From the state
a successful `lora_controller_init` leaves, and likewise from the statics as
the program starts, after any finite sequence of liveness checks (at any
ticks), registrations, wake-ups and interrupts reporting a byte count other
than 12, the link is `LORA_CONTROLLER_DISCONNECTED` and not one subscriber
invocation has been made. -/
theorem link_stays_down_without_frames (evs : List Event)
    (h : ∀ e ∈ evs, e.accepts_no_frame = true) :
    lora_controller_init State.initial true true true =
      Outcome.returned { State.initial with is_initialized := true } () ∧
    ((Machine.start { State.initial with is_initialized := true }).run evs).mod.status =
      LORA_CONTROLLER_DISCONNECTED ∧
    ((Machine.start { State.initial with is_initialized := true }).run evs).calls = [] ∧
    ((Machine.start { State.initial with is_initialized := true }).run evs).calls.length = 0 ∧
    ((Machine.start State.initial).run evs).mod.status = LORA_CONTROLLER_DISCONNECTED ∧
    ((Machine.start State.initial).run evs).calls = [] := by
  have h1 := run_without_frame evs (Machine.start { State.initial with is_initialized := true })
    h rfl rfl rfl rfl
  have h2 := run_without_frame evs (Machine.start State.initial) h rfl rfl rfl rfl
  exact ⟨rfl, h1.1, h1.2, congrArg List.length h1.2, h2.1, h2.2⟩

/-- Witness for C15: two registrations, a frame reported with 11 bytes and
three checks leave the link down and the call trace empty. -/
theorem link_stays_down_without_frames_witness :
    ((Machine.start { State.initial with is_initialized := true }).run
      [Event.register 7, Event.check 2000, Event.register 9, Event.isr 11 2500,
       Event.check 4000, Event.check 6000]).mod.status = LORA_CONTROLLER_DISCONNECTED ∧
    ((Machine.start { State.initial with is_initialized := true }).run
      [Event.register 7, Event.check 2000, Event.register 9, Event.isr 11 2500,
       Event.check 4000, Event.check 6000]).calls = [] :=
  ⟨(link_stays_down_without_frames
      [Event.register 7, Event.check 2000, Event.register 9, Event.isr 11 2500,
       Event.check 4000, Event.check 6000] (by decide)).2.1,
   (link_stays_down_without_frames
      [Event.register 7, Event.check 2000, Event.register 9, Event.isr 11 2500,
       Event.check 4000, Event.check 6000] (by decide)).2.2.1⟩

/-! ## The receive timestamp over time -/

/-- The interrupt handler calls of a list followed by one more. -/
theorem isr_calls_snoc (s : State) (fs : List (Int × Nat)) (f : Int × Nat) :
    isr_calls s (fs ++ [f]) = on_receive_isr (isr_calls s fs) f.1 f.2 := by
  unfold isr_calls
  rw [List.foldl_append]
  rfl

/-- Interrupt handler calls leave the recorded check tick alone. -/
theorem isr_calls_checked (s : State) (fs : List (Int × Nat)) :
    (isr_calls s fs).last_lora_data_checked_ticks = s.last_lora_data_checked_ticks := by
  induction fs using List.reverseRecOn with
  | nil => rfl
  | append_singleton fs f ih =>
    rw [isr_calls_snoc, ← ih]
    unfold on_receive_isr
    split_ifs <;> rfl

/-- Before the tick counter wraps, after interrupt handler calls made at
successive times the timestamp is either the one the state had, no frame
having been accepted, or the tick of an accepted frame that no accepted frame
of the list exceeds. -/
theorem isr_calls_timestamp (s : State) (fs : List (Int × Nat)) :
    List.Pairwise (fun a b : Int × Nat => a.2 ≤ b.2) fs →
    (∀ f ∈ fs, f.2 < TICK_MODULUS) →
    ((∀ f ∈ fs, f.1 ≠ 12) ∧ (isr_calls s fs).last_lora_data_ticks = s.last_lora_data_ticks) ∨
    (∃ f ∈ fs, f.1 = 12 ∧ (isr_calls s fs).last_lora_data_ticks = f.2 ∧
      ∀ g ∈ fs, g.1 = 12 → g.2 ≤ f.2) := by
  induction fs using List.reverseRecOn with
  | nil =>
    intro _ _
    exact Or.inl ⟨fun f hf => absurd hf (List.not_mem_nil f), rfl⟩
  | append_singleton fs f ih =>
    intro hsort hlt
    rw [List.pairwise_append] at hsort
    obtain ⟨hs1, _, hs3⟩ := hsort
    have hlt1 : ∀ g ∈ fs, g.2 < TICK_MODULUS :=
      fun g hg => hlt g (List.mem_append_left _ hg)
    have hf : f.2 < TICK_MODULUS := hlt f (List.mem_append_right _ (List.mem_singleton_self f))
    have hle : ∀ g ∈ fs, g.2 ≤ f.2 := fun g hg => hs3 g hg f (List.mem_singleton_self f)
    rw [isr_calls_snoc]
    by_cases h12 : f.1 = 12
    · right
      refine ⟨f, List.mem_append_right _ (List.mem_singleton_self f), h12, ?_, ?_⟩
      · rw [h12, on_receive_isr_accept]
        exact Nat.mod_eq_of_lt hf
      · intro g hg _
        rcases List.mem_append.mp hg with hg1 | hg2
        · exact hle g hg1
        · rw [List.mem_singleton.mp hg2]
    · rw [(on_receive_isr_wrong_length (isr_calls s fs) f.1 f.2 h12).1]
      rcases ih hs1 hlt1 with ⟨hno, hsame⟩ | ⟨g, hg, hg12, hgd, hgmax⟩
      · left
        refine ⟨?_, hsame⟩
        intro x hx
        rcases List.mem_append.mp hx with hx1 | hx2
        · exact hno x hx1
        · rw [List.mem_singleton.mp hx2]; exact h12
      · right
        refine ⟨g, List.mem_append_left _ hg, hg12, hgd, ?_⟩
        intro x hx hx12
        rcases List.mem_append.mp hx with hx1 | hx2
        · exact hgmax x hx1 hx12
        · rw [List.mem_singleton.mp hx2] at hx12
          exact absurd hx12 h12

/-- C16 (amended): while the 32-bit tick counter has not wrapped (every call
is made before `2 ^ 32` ticks have elapsed), for every sequence of interrupt
handler calls made at successive times, none earlier than the tick the state's
timestamp was stored at, the value in `last_lora_data_ticks` after each call
is at least the value before it; and then, the timestamp not being ahead of
the recorded check tick to begin with, the monitor's test
`last_lora_data_ticks > last_lora_data_checked_ticks` is true exactly when one
of the calls accepted a frame at a tick greater than the recorded check tick. -/
theorem receive_timestamp_monotone_before_wrap (s : State) (fs : List (Int × Nat))
    (hsort : List.Pairwise (fun a b : Int × Nat => a.2 ≤ b.2) fs)
    (hlt : ∀ f ∈ fs, f.2 < TICK_MODULUS)
    (hs : ∀ f ∈ fs, s.last_lora_data_ticks ≤ f.2) :
    (∀ pre f post, fs = pre ++ f :: post →
      (isr_calls s pre).last_lora_data_ticks ≤
        (isr_calls s (pre ++ [f])).last_lora_data_ticks) ∧
    (s.last_lora_data_ticks ≤ s.last_lora_data_checked_ticks →
      ((isr_calls s fs).last_lora_data_ticks > (isr_calls s fs).last_lora_data_checked_ticks ↔
        ∃ f ∈ fs, f.1 = 12 ∧ s.last_lora_data_checked_ticks < f.2)) := by
  constructor
  · intro pre f post hfs
    have hfmem : f ∈ fs := by rw [hfs]; simp
    have hpre_mem : ∀ g ∈ pre, g ∈ fs := fun g hg => by rw [hfs]; simp [hg]
    have hsort2 := hsort
    rw [hfs, List.pairwise_append] at hsort2
    obtain ⟨hp1, _, hp3⟩ := hsort2
    have hbound : (isr_calls s pre).last_lora_data_ticks ≤ f.2 := by
      rcases isr_calls_timestamp s pre hp1 (fun g hg => hlt g (hpre_mem g hg)) with
        ⟨_, hsame⟩ | ⟨g, hg, _, hgd, _⟩
      · rw [hsame]; exact hs f hfmem
      · rw [hgd]; exact hp3 g hg f (List.mem_cons_self _ _)
    rw [isr_calls_snoc]
    by_cases h12 : f.1 = 12
    · rw [h12, on_receive_isr_accept]
      show _ ≤ xTaskGetTickCountFromISR f.2
      have : xTaskGetTickCountFromISR f.2 = f.2 := Nat.mod_eq_of_lt (hlt f hfmem)
      rw [this]
      exact hbound
    · rw [(on_receive_isr_wrong_length (isr_calls s pre) f.1 f.2 h12).1]
  · intro hle
    rw [isr_calls_checked]
    constructor
    · intro hgt
      rcases isr_calls_timestamp s fs hsort hlt with ⟨_, hsame⟩ | ⟨f, hf, hf12, hfd, _⟩
      · rw [hsame] at hgt
        exact absurd hle (Nat.not_le.mpr hgt)
      · exact ⟨f, hf, hf12, by rw [← hfd]; exact hgt⟩
    · rintro ⟨g, hg, hg12, hgt⟩
      rcases isr_calls_timestamp s fs hsort hlt with ⟨hno, _⟩ | ⟨f, _, _, hfd, hmax⟩
      · exact absurd hg12 (hno g hg)
      · rw [hfd]
        exact Nat.lt_of_lt_of_le hgt (hmax g hg hg12)

/-- Witness for C16: frames accepted at ticks 100 and 300, with a frame of 11
bytes reported in between, leave timestamps that do not decrease. -/
theorem receive_timestamp_monotone_before_wrap_witness :
    (isr_calls State.initial [(12, 100), (11, 150)]).last_lora_data_ticks ≤
      (isr_calls State.initial ([(12, 100), (11, 150)] ++ [(12, 300)])).last_lora_data_ticks ∧
    ((isr_calls State.initial [(12, 100), (11, 150), (12, 300)]).last_lora_data_ticks >
        (isr_calls State.initial
          [(12, 100), (11, 150), (12, 300)]).last_lora_data_checked_ticks ↔
      ∃ f ∈ [((12 : Int), 100), (11, 150), (12, 300)],
        f.1 = 12 ∧ State.initial.last_lora_data_checked_ticks < f.2) :=
  ⟨(receive_timestamp_monotone_before_wrap State.initial [(12, 100), (11, 150), (12, 300)]
      (by decide) (by decide) (by decide)).1 [(12, 100), (11, 150)] (12, 300) [] rfl,
   (receive_timestamp_monotone_before_wrap State.initial [(12, 100), (11, 150), (12, 300)]
      (by decide) (by decide) (by decide)).2 (by decide)⟩

/-- C16 as stated fails when the 32-bit tick counter wraps. A frame accepted
after 4294967295 ticks stores 4294967295; a frame accepted six ticks later,
after 4294967301 ticks, stores 5, which is less. And with a check having
recorded tick 4294967000, that later frame leaves the monitor's test
`5 > 4294967000` false although it was accepted after the check. -/
theorem receive_timestamp_wraps_counterexample :
    (4294967295 : Nat) ≤ 4294967301 ∧
    (isr_calls State.initial [(12, 4294967295)]).last_lora_data_ticks = 4294967295 ∧
    (isr_calls State.initial [(12, 4294967295), (12, 4294967301)]).last_lora_data_ticks = 5 ∧
    ¬ ((isr_calls State.initial [(12, 4294967295)]).last_lora_data_ticks ≤
      (isr_calls State.initial [(12, 4294967295), (12, 4294967301)]).last_lora_data_ticks) ∧
    ¬ ((on_receive_isr { State.initial with last_lora_data_checked_ticks := 4294967000 }
          12 4294967301).last_lora_data_ticks >
        (on_receive_isr { State.initial with last_lora_data_checked_ticks := 4294967000 }
          12 4294967301).last_lora_data_checked_ticks) := by
  refine ⟨by decide, rfl, rfl, ?_, ?_⟩
  · show ¬ ((4294967295 : Nat) ≤ 5)
    decide
  · show ¬ ((5 : Nat) > 4294967000)
    decide

end LoraController
